import Mathlib

/-!
Verification of the BingeBuddy recommendation core against its specification.

This file gives a shallow embedding, in Lean 4, of the algorithmic core of the
repository:

* `src/lib/ai/preferenceLearning.ts` — the preference-learning store,
  weight recomputation, personalization scoring and the diversity re-ranking
  pass;
* the confidence-scoring module (`calculateConfidenceScore`, `determineLevel`,
  `determineBehavior`, `createNoMatchScore`, the five factor calculators);
* `determineEraFlexibility` from the reference-movie analyzer.

JavaScript numbers are modelled as exact rationals (`ℚ`); counters as `ℤ`;
JS objects used as dictionaries (`Record<K, number>`) as insertion-ordered
association lists `List (K × ℚ)`.  `Math.round` and `Math.floor` are modelled
exactly (`⌊x + 1/2⌋` resp. `⌊x⌋`).  The only non-rational quantity in the
sources is the recency multiplier `Math.pow(decayFactor, ageInDays / 7)`
(a power with fractional exponent); it is abstracted as an explicit function
parameter `recency : ℚ → ℚ` mapping a record timestamp to its multiplier.
At age 0 it is `1`, and at a whole number of weeks `w` it is
`decayFactor ^ w`.
-/

namespace Binge

/-- Media type: `'movie' | 'tv'`. -/
inductive MediaType where
  | movie
  | tv
deriving DecidableEq, Repr

/-- Feedback type for a recommendation: `'like' | 'dislike' | 'neutral'`. -/
inductive FeedbackType where
  | like
  | dislike
  | neutral
deriving DecidableEq, Repr

/-- `CinemaIndustry` union type from `referenceMovieAnalyzer.ts`. -/
inductive CinemaIndustry where
  | bollywood
  | tollywood
  | kollywood
  | mollywood
  | sandalwood
  | indianOther
  | hollywood
  | korean
  | japanese
  | chinese
  | european
  | other
deriving DecidableEq, Repr

/-- `ReleaseEra` union type: `'classic' | '90s' | '2000s' | '2010s' | 'recent' | 'unknown'`. -/
inductive ReleaseEra where
  | classic
  | era90s
  | era2000s
  | era2010s
  | recent
  | unknown
deriving DecidableEq, Repr

/-- `ThematicElement` union type from the cinematic profile analyzer. -/
inductive ThematicElement where
  | heroism
  | sacrifice
  | revenge
  | love
  | family
  | friendship
  | patriotism
  | rebellion
  | power
  | justice
  | survival
  | mythology
  | history
  | crime
  | politics
  | sports
  | comingOfAge
  | redemption
  | betrayal
  | ambition
  | violence
  | loyalty
  | action
  | drama
  | romance
  | reincarnation
  | supernatural
  | fantasy
deriving DecidableEq, Repr

/-- Narrative scale values used in `MovieAttributes`. -/
inductive NarrativeScale where
  | epic
  | large
  | medium
  | intimate
deriving DecidableEq, Repr

/-- Audience type values used in `MovieAttributes`. -/
inductive AudienceType where
  | mass
  | family
  | youth
  | mature
  | niche
  | universal
deriving DecidableEq, Repr

/-- JavaScript `Math.min` on rationals (kernel-reducible). -/
def jsMin (a b : ℚ) : ℚ := if a ≤ b then a else b

/-- JavaScript `Math.max` on rationals (kernel-reducible). -/
def jsMax (a b : ℚ) : ℚ := if a ≤ b then b else a

/-- JavaScript `Math.abs` on rationals (kernel-reducible). -/
def jsAbs (q : ℚ) : ℚ := if q < 0 then -q else q

/-- JavaScript `Math.min` on integers. -/
def jsMinI (a b : ℤ) : ℤ := if a ≤ b then a else b

/-- JavaScript `Math.max` on integers. -/
def jsMaxI (a b : ℤ) : ℤ := if a ≤ b then b else a

/-- JavaScript `Math.abs` on integers. -/
def jsAbsI (x : ℤ) : ℤ := if x < 0 then -x else x

/-- JavaScript `Math.round`: round half toward positive infinity. -/
def jsRound (q : ℚ) : ℤ := ⌊q + 1 / 2⌋

/-- JavaScript `Math.floor` on a rational. -/
def jsFloor (q : ℚ) : ℤ := ⌊q⌋

/-- Lookup in an insertion-ordered association list: models reading a JS
object property, `undefined` becoming `none`. -/
def wfind {K : Type} [DecidableEq K] (k : K) : List (K × ℚ) → Option ℚ
  | [] => none
  | (k', v) :: rest => if k' = k then some v else wfind k rest

/-- Models `m[k] = (m[k] || 0) + delta` on a JS object: update the existing
entry in place, or append a fresh entry at the end (JS property insertion
order). -/
def wupd {K : Type} [DecidableEq K] (k : K) (delta : ℚ) : List (K × ℚ) → List (K × ℚ)
  | [] => [(k, delta)]
  | (k', v) :: rest => if k' = k then (k', v + delta) :: rest else (k', v) :: wupd k delta rest

/-- Models the `capWeight` loop `Math.max(-maxWeight, Math.min(maxWeight, w))`
applied to every stored weight. -/
def wcap {K : Type} (maxWeight : ℚ) (m : List (K × ℚ)) : List (K × ℚ) :=
  m.map (fun p => (p.1, jsMax (-maxWeight) (jsMin maxWeight p.2)))

/-- `MovieAttributes` interface from `preferenceLearning.ts`. -/
structure MovieAttributes where
  id : ℤ
  title : String
  type : MediaType
  genreIds : List ℤ
  originalLanguage : String
  industry : CinemaIndustry
  releaseEra : ReleaseEra
  releaseYear : Option ℤ
  voteAverage : ℚ
  popularity : ℚ
  themes : Option (List ThematicElement)
  narrativeScale : Option NarrativeScale
  audienceType : Option AudienceType
deriving DecidableEq, Repr

/-- `UserFeedback` interface.  `timestamp` is the `Date.now()` value (ms). -/
structure UserFeedback where
  id : String
  mediaId : ℤ
  mediaType : MediaType
  title : String
  feedback : FeedbackType
  attributes : MovieAttributes
  referenceMovieId : Option ℤ
  timestamp : ℚ
deriving DecidableEq, Repr

/-- `AttributeWeights` interface: each `Record<K, number>` is an
insertion-ordered association list. -/
structure AttributeWeights where
  genres : List (ℤ × ℚ)
  languages : List (String × ℚ)
  industries : List (CinemaIndustry × ℚ)
  eras : List (ReleaseEra × ℚ)
  narrativeScales : List (NarrativeScale × ℚ)
  audienceTypes : List (AudienceType × ℚ)
  themes : List (ThematicElement × ℚ)
deriving DecidableEq, Repr

/-- `LearningConfig` interface. -/
structure LearningConfig where
  maxWeight : ℚ
  learningRate : ℚ
  decayFactor : ℚ
  minFeedbackThreshold : ℚ
  preferenceInfluence : ℚ
  explorationFactor : ℚ
deriving DecidableEq, Repr

/-- `DEFAULT_CONFIG` constant. -/
def DEFAULT_CONFIG : LearningConfig :=
  { maxWeight := 4 / 5
    learningRate := 3 / 20
    decayFactor := 19 / 20
    minFeedbackThreshold := 3
    preferenceInfluence := 1 / 4
    explorationFactor := 3 / 20 }

/-- `EMPTY_WEIGHTS` constant. -/
def EMPTY_WEIGHTS : AttributeWeights :=
  { genres := []
    languages := []
    industries := []
    eras := []
    narrativeScales := []
    audienceTypes := []
    themes := [] }

/-- `PreferenceLearningState` interface. -/
structure PreferenceLearningState where
  feedbackHistory : List UserFeedback
  attributeWeights : AttributeWeights
  config : LearningConfig
  totalLikes : ℤ
  totalDislikes : ℤ
  lastUpdated : ℚ
deriving DecidableEq, Repr

/-- `createEmptyState`, with `Date.now()` passed explicitly as `now`. -/
def createEmptyState (now : ℚ) : PreferenceLearningState :=
  { feedbackHistory := []
    attributeWeights := EMPTY_WEIGHTS
    config := DEFAULT_CONFIG
    totalLikes := 0
    totalDislikes := 0
    lastUpdated := now }

/-- One iteration of the `recalculateWeights` accumulation loop: a single
non-neutral feedback record contributes its signed, decayed delta to every
attribute dimension it touches.  (The source also accumulates
`genreCounts`/`languageCounts`/`industryCounts`/`eraCounts`, but those
counters are never read afterwards; they are omitted.)  The `if
(attrs.originalLanguage)` truthiness guard skips the empty string. -/
def processFeedback (config : LearningConfig) (recency : ℚ → ℚ)
    (w : AttributeWeights) (fb : UserFeedback) : AttributeWeights :=
  if fb.feedback = FeedbackType.neutral then w else
  let direction : ℚ := if fb.feedback = FeedbackType.like then 1 else -1
  let delta := direction * config.learningRate * recency fb.timestamp
  let attrs := fb.attributes
  let w := { w with genres := attrs.genreIds.foldl (fun m g => wupd g delta m) w.genres }
  let w := if attrs.originalLanguage ≠ "" then
      { w with languages := wupd attrs.originalLanguage delta w.languages } else w
  let w := { w with industries := wupd attrs.industry delta w.industries }
  let w := { w with eras := wupd attrs.releaseEra delta w.eras }
  let w := match attrs.themes with
    | some ts => { w with themes := ts.foldl (fun m t => wupd t delta m) w.themes }
    | none => w
  let w := match attrs.narrativeScale with
    | some ns => { w with narrativeScales := wupd ns delta w.narrativeScales }
    | none => w
  match attrs.audienceType with
    | some a => { w with audienceTypes := wupd a delta w.audienceTypes }
    | none => w

/-- Clamp every stored weight to `[-maxWeight, +maxWeight]` (the seven
`capWeight` loops at the end of `recalculateWeights`). -/
def capAllWeights (maxWeight : ℚ) (w : AttributeWeights) : AttributeWeights :=
  { genres := wcap maxWeight w.genres
    languages := wcap maxWeight w.languages
    industries := wcap maxWeight w.industries
    eras := wcap maxWeight w.eras
    narrativeScales := wcap maxWeight w.narrativeScales
    audienceTypes := wcap maxWeight w.audienceTypes
    themes := wcap maxWeight w.themes }

/-- `recalculateWeights`: rebuild all attribute weights from the feedback
history, then cap them.  `recency` abstracts
`Math.pow(config.decayFactor, ageInDays / 7)` as a function of the record
timestamp (see the file header). -/
def recalculateWeights (recency : ℚ → ℚ) (state : PreferenceLearningState) :
    PreferenceLearningState :=
  let raw := state.feedbackHistory.foldl (processFeedback state.config recency) EMPTY_WEIGHTS
  { state with attributeWeights := capAllWeights state.config.maxWeight raw }

/-- `recordFeedback`: replace any existing record for the same
`(mediaId, mediaType)` (adjusting the counters by the delta between the old
and new feedback values), else append; then recompute weights.  `now` stands
for `Date.now()` and `freshId` for the generated random id. -/
def recordFeedback (recency : ℚ → ℚ) (now : ℚ) (freshId : String)
    (state : PreferenceLearningState) (attributes : MovieAttributes)
    (feedback : FeedbackType) (referenceMovieId : Option ℤ) :
    PreferenceLearningState :=
  let feedbackRecord : UserFeedback :=
    { id := freshId
      mediaId := attributes.id
      mediaType := attributes.type
      title := attributes.title
      feedback := feedback
      attributes := attributes
      referenceMovieId := referenceMovieId
      timestamp := now }
  match state.feedbackHistory.findIdx?
      (fun fb => fb.mediaId = attributes.id ∧ fb.mediaType = attributes.type) with
  | some existingIndex =>
    let oldFeedback := ((state.feedbackHistory.get? existingIndex).map
      UserFeedback.feedback).getD FeedbackType.neutral
    let newHistory := state.feedbackHistory.set existingIndex feedbackRecord
    let likesDelta : ℤ := (if feedback = FeedbackType.like then 1 else 0) -
      (if oldFeedback = FeedbackType.like then 1 else 0)
    let dislikesDelta : ℤ := (if feedback = FeedbackType.dislike then 1 else 0) -
      (if oldFeedback = FeedbackType.dislike then 1 else 0)
    recalculateWeights recency
      { state with
        feedbackHistory := newHistory
        totalLikes := state.totalLikes + likesDelta
        totalDislikes := state.totalDislikes + dislikesDelta
        lastUpdated := now }
  | none =>
    recalculateWeights recency
      { state with
        feedbackHistory := state.feedbackHistory ++ [feedbackRecord]
        totalLikes := state.totalLikes + (if feedback = FeedbackType.like then 1 else 0)
        totalDislikes := state.totalDislikes + (if feedback = FeedbackType.dislike then 1 else 0)
        lastUpdated := now }

/-- `removeFeedback`: delete the record for `(mediaId, mediaType)` if present
(no-op otherwise), adjust the counters, and recompute weights. -/
def removeFeedback (recency : ℚ → ℚ) (now : ℚ)
    (state : PreferenceLearningState) (mediaId : ℤ) (mediaType : MediaType) :
    PreferenceLearningState :=
  match state.feedbackHistory.findIdx?
      (fun fb => fb.mediaId = mediaId ∧ fb.mediaType = mediaType) with
  | none => state
  | some existingIndex =>
    let removed := ((state.feedbackHistory.get? existingIndex).map
      UserFeedback.feedback).getD FeedbackType.neutral
    recalculateWeights recency
      { state with
        feedbackHistory := state.feedbackHistory.eraseIdx existingIndex
        totalLikes := state.totalLikes - (if removed = FeedbackType.like then 1 else 0)
        totalDislikes := state.totalDislikes - (if removed = FeedbackType.dislike then 1 else 0)
        lastUpdated := now }

/-- `getFeedback`: `'neutral'` if no record exists for the item. -/
def getFeedback (state : PreferenceLearningState) (mediaId : ℤ)
    (mediaType : MediaType) : FeedbackType :=
  match state.feedbackHistory.find?
      (fun fb => fb.mediaId = mediaId ∧ fb.mediaType = mediaType) with
  | some fb => fb.feedback
  | none => FeedbackType.neutral

/-- Confidence tag of a personalization score: `'high' | 'medium' | 'low'`. -/
inductive PrefConfidence where
  | high
  | medium
  | low
deriving DecidableEq, Repr

/-- `PersonalizationScore` interface. -/
structure PersonalizationScore where
  referenceScore : ℚ
  preferenceAdjustment : ℚ
  explorationBonus : ℚ
  finalScore : ℚ
  preferenceConfidence : PrefConfidence
  explanation : List String
deriving DecidableEq, Repr

/-- `calculateExplorationBonus`: novelty boost for unweighted attributes,
scaled by the exploration factor, capped at 10, inactive below 3 likes. -/
def calculateExplorationBonus (state : PreferenceLearningState)
    (attributes : MovieAttributes) : ℚ :=
  let w := state.attributeWeights
  if state.totalLikes < 3 then 0 else
  let noveltyScore : ℚ :=
    (if attributes.genreIds.any (fun g => wfind g w.genres = none) then 3 else 0) +
    (if wfind attributes.originalLanguage w.languages = none then 3 else 0) +
    (if wfind attributes.releaseEra w.eras = none then 2 else 0)
  jsMin 10 (noveltyScore * state.config.explorationFactor)

/-- Accumulator of the preference-contribution loops in
`calculatePersonalizationScore`: running weighted sum, count of contributing
attributes, and explanation strings. -/
structure PrefAcc where
  score : ℚ
  count : ℕ
  explanation : List String

/-- Genre-contribution loop of `calculatePersonalizationScore` (weight ×1,
explanation pushed when the magnitude exceeds 0.3). -/
def genreContrib (aw : AttributeWeights) (acc : PrefAcc) (genreId : ℤ) : PrefAcc :=
  match wfind genreId aw.genres with
  | some w =>
    { score := acc.score + w
      count := acc.count + 1
      explanation := acc.explanation ++
        (if jsAbs w > 3 / 10 then [if w > 0 then "Liked genre" else "Disliked genre"] else []) }
  | none => acc

/-- Theme-contribution loop of `calculatePersonalizationScore` (weight ×0.5). -/
def themeContrib (aw : AttributeWeights) (acc : PrefAcc) (theme : ThematicElement) : PrefAcc :=
  match wfind theme aw.themes with
  | some w => { acc with score := acc.score + w * (1 / 2), count := acc.count + 1 }
  | none => acc

/-- The full preference-contribution accumulation of
`calculatePersonalizationScore`: the genre loop, then the language
(×1.5), industry (×1.2) and era (×1) contributions, then the theme loop. -/
def prefAccOf (aw : AttributeWeights) (candidateAttributes : MovieAttributes) : PrefAcc :=
  let acc : PrefAcc := { score := 0, count := 0, explanation := [] }
  let acc := candidateAttributes.genreIds.foldl (genreContrib aw) acc
  let acc : PrefAcc := match wfind candidateAttributes.originalLanguage aw.languages with
    | some langWeight =>
      { score := acc.score + langWeight * (3 / 2)
        count := acc.count + 1
        explanation := acc.explanation ++
          (if jsAbs langWeight > 3 / 10 then
            [if langWeight > 0 then "Preferred language" else "Less preferred language"]
          else []) }
    | none => acc
  let acc : PrefAcc := match wfind candidateAttributes.industry aw.industries with
    | some industryWeight =>
      { acc with score := acc.score + industryWeight * (6 / 5), count := acc.count + 1 }
    | none => acc
  let acc : PrefAcc := match wfind candidateAttributes.releaseEra aw.eras with
    | some eraWeight => { acc with score := acc.score + eraWeight, count := acc.count + 1 }
    | none => acc
  match candidateAttributes.themes with
  | some ts => ts.foldl (themeContrib aw) acc
  | none => acc

/-- The normalized preference of `calculatePersonalizationScore`: the
accumulated weighted sum averaged over the contributing-attribute count and
rescaled to the `[-30, 30]` band relative to `maxWeight` (0 when nothing
contributed). -/
def normalizedPreferenceOf (state : PreferenceLearningState)
    (candidateAttributes : MovieAttributes) : ℚ :=
  let acc := prefAccOf state.attributeWeights candidateAttributes
  if acc.count > 0 then acc.score / (acc.count : ℚ) * 30 / state.config.maxWeight else 0

/-- The influence-capped preference adjustment (before rounding). -/
def cappedPreferenceOf (state : PreferenceLearningState)
    (candidateAttributes : MovieAttributes) : ℚ :=
  normalizedPreferenceOf state candidateAttributes * state.config.preferenceInfluence

/-- `calculatePersonalizationScore`: blend an externally supplied
reference-similarity score with the learned attribute weights.  Early return
when total feedback is below `minFeedbackThreshold`; otherwise weighted
contributions (genre ×1, language ×1.5, industry ×1.2, era ×1, theme ×0.5)
averaged over the contributing-attribute count, rescaled by
`30 / maxWeight`, multiplied by `preferenceInfluence`, rounded to one
decimal, and added (with the exploration bonus) to the reference score,
clamping the final score to `[0, 100]`. -/
def calculatePersonalizationScore (state : PreferenceLearningState)
    (candidateAttributes : MovieAttributes) (referenceScore : ℚ) :
    PersonalizationScore :=
  let config := state.config
  let totalFeedback := state.totalLikes + state.totalDislikes
  if (totalFeedback : ℚ) < config.minFeedbackThreshold then
    { referenceScore := referenceScore
      preferenceAdjustment := 0
      explorationBonus := calculateExplorationBonus state candidateAttributes
      finalScore := referenceScore
      preferenceConfidence := PrefConfidence.low
      explanation := ["Not enough feedback yet for personalization"] }
  else
    let acc := prefAccOf state.attributeWeights candidateAttributes
    let cappedPreference := cappedPreferenceOf state candidateAttributes
    let explorationBonus := calculateExplorationBonus state candidateAttributes
    let finalScore := referenceScore + cappedPreference + explorationBonus
    let confidence : PrefConfidence :=
      if totalFeedback ≥ 10 then PrefConfidence.high
      else if totalFeedback ≥ 5 then PrefConfidence.medium
      else PrefConfidence.low
    { referenceScore := referenceScore
      preferenceAdjustment := (jsRound (cappedPreference * 10) : ℚ) / 10
      explorationBonus := explorationBonus
      finalScore := jsMax 0 (jsMin 100 finalScore)
      preferenceConfidence := confidence
      explanation :=
        if acc.explanation.length > 0 then acc.explanation
        else ["Based on your feedback patterns"] }

/-- JavaScript `Array.prototype.slice(start, end)`: negative indices count
from the end, and both indices are clamped to `[0, length]`. -/
def jsSlice {α : Type} (l : List α) (start endIdx : ℤ) : List α :=
  let len : ℤ := l.length
  let s := if start < 0 then jsMaxI (len + start) 0 else jsMinI start len
  let e := if endIdx < 0 then jsMaxI (len + endIdx) 0 else jsMinI endIdx len
  (l.drop s.toNat).take (e - s).toNat

/-- A scored recommendation item as seen by `ensureTopDiversity`: only the
identity and the fields of its `personalizationScore` that the pass reads. -/
structure RankedItem where
  id : ℤ
  explorationBonus : ℚ
  finalScore : ℚ
deriving DecidableEq, Repr

/-- Top-segment size used by the diversity pass: `Math.min(10, items.length)`. -/
def topCountOf (items : List RankedItem) : ℤ := jsMinI 10 (items.length : ℤ)

/-- Exploration slots: `Math.max(1, Math.floor(topCount * explorationFactor))`. -/
def explorationSlotsOf (items : List RankedItem) (state : PreferenceLearningState) : ℤ :=
  jsMaxI 1 (jsFloor ((topCountOf items : ℚ) * state.config.explorationFactor))

/-- The exploratory items the diversity pass splices in: items outside the
top segment with exploration bonus ≥ 2, truncated to the slot quota. -/
def exploratoryOf (items : List RankedItem) (state : PreferenceLearningState) :
    List RankedItem :=
  let rest := jsSlice items (topCountOf items) (items.length : ℤ)
  jsSlice (rest.filter (fun item => item.explorationBonus ≥ 2)) 0
    (explorationSlotsOf items state)

/-- `ensureTopDiversity`: splice exploratory items into the head of the
ranked list (positions starting at `min(5, topCount − explorationSlots)`),
keeping the untouched head and the tail in relative order.  The source
excludes spliced items from the tail with `!exploratory.includes(item)`
(JS reference equality); over a duplicate-free list of values this
coincides with the `contains` test used here. -/
def ensureTopDiversity (items : List RankedItem) (state : PreferenceLearningState) :
    List RankedItem :=
  if items.length ≤ 5 ∨ state.totalLikes < 5 then items else
  let topCount := topCountOf items
  let explorationSlots := explorationSlotsOf items state
  let top := jsSlice items 0 topCount
  let rest := jsSlice items topCount (items.length : ℤ)
  let exploratory := exploratoryOf items state
  if exploratory.length = 0 then items else
  let insertPosition := jsMinI 5 (topCount - explorationSlots)
  jsSlice top 0 insertPosition ++ exploratory ++
    jsSlice top insertPosition (topCount - (exploratory.length : ℤ)) ++
    rest.filter (fun item => ¬ exploratory.contains item)

/-- Confidence level: `'exact' | 'high' | 'medium' | 'low' | 'ambiguous'`. -/
inductive ConfidenceLevel where
  | exact
  | high
  | medium
  | low
  | ambiguous
deriving DecidableEq, Repr

/-- Title match tier (`'partial'` is rendered `partialMatch`). -/
inductive TitleMatchType where
  | exact
  | caseInsensitive
  | partialMatch
  | fuzzy
deriving DecidableEq, Repr

/-- Year match tier (`'none'` is rendered `noneMatch`). -/
inductive YearMatchType where
  | exact
  | close
  | noneMatch
  | notProvided
deriving DecidableEq, Repr

/-- Popularity tier. -/
inductive PopularityTier where
  | blockbuster
  | popular
  | known
  | obscure
deriving DecidableEq, Repr

/-- Recommendation strictness. -/
inductive Strictness where
  | strict
  | moderate
  | flexible
deriving DecidableEq, Repr

/-- Behavior action: `'recommend' | 'confirm' | 'clarify' | 'reject'`. -/
inductive BehaviorAction where
  | recommend
  | confirm
  | clarify
  | reject
deriving DecidableEq, Repr

/-- A search candidate, unifying the `Movie | TVShow` shapes as the
confidence scorer reads them: `title` is `title`/`name`, `originalTitle` is
`original_title`/`original_name`, `releaseYear` is the year parsed from the
first four characters of `release_date`/`first_air_date` (`none` when the
date is absent or empty), and `voteCount` carries the `vote_count || 0`
default. -/
structure Candidate where
  id : ℤ
  isMovie : Bool
  title : String
  originalTitle : Option String
  releaseYear : Option ℤ
  originalLanguage : String
  voteCount : ℤ
  popularity : ℚ
deriving DecidableEq, Repr

/-- `ConfidenceFactors` interface. -/
structure ConfidenceFactors where
  titleMatch : ℚ
  titleMatchType : TitleMatchType
  yearMatch : ℚ
  yearMatchType : YearMatchType
  popularity : ℚ
  popularityTier : PopularityTier
  uniqueness : ℚ
  alternativeCount : ℕ
  relevance : ℚ
deriving DecidableEq, Repr

/-- `AlternativeMatch` record produced by `generateAlternatives`. -/
structure AlternativeMatch where
  id : ℤ
  title : String
  year : Option ℤ
  language : String
  type : MediaType
  confidence : ℤ
deriving DecidableEq, Repr

/-- `ConfidenceBehavior` interface (optional fields become `Option`). -/
structure ConfidenceBehavior where
  shouldProceed : Bool
  shouldClarify : Bool
  recommendationStrictness : Strictness
  showConfidenceIndicator : Bool
  action : BehaviorAction
  clarificationMessage : Option String
  alternatives : Option (List AlternativeMatch)
deriving DecidableEq, Repr

/-- `ConfidenceScore` interface. -/
structure ConfidenceScore where
  level : ConfidenceLevel
  score : ℚ
  factors : ConfidenceFactors
  behavior : ConfidenceBehavior
  explanation : String
  displayLabel : Option String
deriving DecidableEq, Repr

/-- `MatchContext` interface. -/
structure MatchContext where
  extractedTitle : String
  extractedYear : Option ℤ
  yearProvided : Bool
  candidates : List Candidate
  bestMatch : Option Candidate
  preferMovies : Bool
deriving DecidableEq, Repr

/-- `CONFIDENCE_THRESHOLDS` constant: below 35 is ambiguous. -/
structure ConfidenceThresholds where
  exact : ℚ
  high : ℚ
  medium : ℚ
  low : ℚ
deriving DecidableEq, Repr

/-- The threshold values 90 / 75 / 55 / 35. -/
def CONFIDENCE_THRESHOLDS : ConfidenceThresholds :=
  { exact := 90, high := 75, medium := 55, low := 35 }

/-- ASCII lowercase of a string (JS `toLowerCase` on the titles in play). -/
def asciiLower (s : String) : String := String.mk (s.toList.map Char.toLower)

/-- ASCII uppercase of a string (JS `toUpperCase`). -/
def asciiUpper (s : String) : String := String.mk (s.toList.map Char.toUpper)

/-- JS `String.prototype.trim`: strip leading and trailing whitespace. -/
def jsTrim (s : String) : String :=
  String.mk (((s.toList.dropWhile Char.isWhitespace).reverse.dropWhile
    Char.isWhitespace).reverse)

/-- JS `String.prototype.includes`. -/
def strIncludes (s sub : String) : Bool :=
  (s.toList.tails.any (fun t => sub.toList.isPrefixOf t))

/-- JS `String.prototype.split(' ')`: split on every single space character,
keeping empty fragments (`"".split(' ')` is `[""]`). -/
def splitOnSpace : List Char → List (List Char)
  | [] => [[]]
  | c :: rest =>
    let r := splitOnSpace rest
    if c = ' ' then [] :: r
    else match r with
      | w :: ws => (c :: w) :: ws
      | [] => [[c]]

/-- Word list of a string, via `split(' ')`. -/
def splitWords (s : String) : List String :=
  (splitOnSpace s.toList).map (fun w => String.mk w)

/-- Collapse every whitespace run into a single space
(JS `replace(/\s+/g, ' ')`); the boolean flag records whether the previous
kept character was part of a whitespace run. -/
def collapseWsAux : Bool → List Char → List Char
  | _, [] => []
  | prev, c :: rest =>
    if c.isWhitespace then
      if prev then collapseWsAux true rest else ' ' :: collapseWsAux true rest
    else c :: collapseWsAux false rest

/-- Keep only lowercase letters, digits and whitespace
(JS `replace(/[^a-z0-9\s]/g, '')` on an already lowercased string). -/
def isKeptChar (c : Char) : Bool :=
  (('a' ≤ c ∧ c ≤ 'z') ∨ ('0' ≤ c ∧ c ≤ '9') ∨ c.isWhitespace : Bool)

/-- `normalizeTitle`: lowercase, strip special characters, collapse
whitespace, remove the articles `the`/`a`/`an`, trim.  After the first three
steps the string contains only `[a-z0-9 ]` with single spaces, on which the
word-boundary regex `\b(the|a|an)\b` removes exactly the whole words equal
to an article; that is implemented by mapping those words to the empty
string (the surrounding separators are preserved, as with the regex). -/
def normalizeTitle (title : String) : String :=
  let s := asciiLower title
  let s := String.mk (s.toList.filter isKeptChar)
  let s := String.mk (collapseWsAux false s.toList)
  let ws := (splitWords s).map (fun w => if w = "the" ∨ w = "a" ∨ w = "an" then "" else w)
  jsTrim (String.intercalate " " ws)

/-- `calculateSimilarity`: Jaccard-style similarity between the word
multiset of `str1` and the word set of `str2` (`setDedupAux` models the
first-seen deduplication of a JS `Set`). -/
def setDedupAux {α : Type} [DecidableEq α] (seen : List α) : List α → List α
  | [] => []
  | a :: rest =>
    if seen.contains a then setDedupAux seen rest
    else a :: setDedupAux (a :: seen) rest

/-- Word-overlap similarity used by the fuzzy title tier. -/
def calculateSimilarity (str1 str2 : String) : ℚ :=
  if str1 = str2 then 1
  else if str1.length = 0 ∨ str2.length = 0 then 0
  else
    let words1 := (splitWords str1).filter (fun w => w.length > 0)
    let words2Set := setDedupAux [] ((splitWords str2).filter (fun w => w.length > 0))
    let intersection := (words1.filter (fun w => words2Set.contains w)).length
    let union := words1.length + words2Set.length - intersection
    if union > 0 then (intersection : ℚ) / (union : ℚ) else 0

/-- Result of `calculateTitleMatch`. -/
structure TitleMatchResult where
  score : ℚ
  type : TitleMatchType
deriving DecidableEq, Repr

/-- `calculateTitleMatch`: exact (40) / normalized (38) / partial
(25–35, proportional) / fuzzy (similarity × 30, or × 20 when ≤ 0.7). -/
def calculateTitleMatch (query : String) (c : Candidate) : TitleMatchResult :=
  let matchTitle := c.title
  let queryLower := jsTrim (asciiLower query)
  let titleLower := jsTrim (asciiLower matchTitle)
  let originalLower :=
    match c.originalTitle with
    | some t => let s := jsTrim (asciiLower t); if s = "" then titleLower else s
    | none => titleLower
  if queryLower = titleLower ∨ queryLower = originalLower then
    { score := 40, type := TitleMatchType.exact }
  else
    let normalizedQuery := normalizeTitle queryLower
    let normalizedTitle := normalizeTitle titleLower
    let normalizedOriginal := normalizeTitle originalLower
    if normalizedQuery = normalizedTitle ∨ normalizedQuery = normalizedOriginal then
      { score := 38, type := TitleMatchType.caseInsensitive }
    else if strIncludes titleLower queryLower ∨ strIncludes queryLower titleLower then
      let ratio : ℚ := (min queryLower.length titleLower.length : ℚ) /
        (max queryLower.length titleLower.length : ℚ)
      { score := (jsRound (25 + ratio * 10) : ℚ), type := TitleMatchType.partialMatch }
    else
      let similarity := calculateSimilarity normalizedQuery normalizedTitle
      if similarity > 7 / 10 then
        { score := (jsRound (similarity * 30) : ℚ), type := TitleMatchType.fuzzy }
      else
        { score := (jsRound (similarity * 20) : ℚ), type := TitleMatchType.fuzzy }

/-- Result of `calculateYearMatch`. -/
structure YearMatchResult where
  score : ℚ
  type : YearMatchType
deriving DecidableEq, Repr

/-- `calculateYearMatch`: 10 neutral credit when no year was supplied (the
`!queryYear` truthiness guard also fires on year 0), 5 when the match has no
release date, else 20 / 15 / 10 / 3 for a difference of 0 / 1 / ≤3 / >3. -/
def calculateYearMatch (queryYear : Option ℤ) (yearProvided : Bool) (c : Candidate) :
    YearMatchResult :=
  match queryYear with
  | none => { score := 10, type := YearMatchType.notProvided }
  | some qy =>
    if yearProvided = false ∨ qy = 0 then
      { score := 10, type := YearMatchType.notProvided }
    else
      match c.releaseYear with
      | none => { score := 5, type := YearMatchType.noneMatch }
      | some matchYear =>
        let yearDiff := jsAbsI (matchYear - qy)
        if yearDiff = 0 then { score := 20, type := YearMatchType.exact }
        else if yearDiff = 1 then { score := 15, type := YearMatchType.close }
        else if yearDiff ≤ 3 then { score := 10, type := YearMatchType.close }
        else { score := 3, type := YearMatchType.noneMatch }

/-- Result of `calculatePopularity`. -/
structure PopularityResult where
  score : ℚ
  tier : PopularityTier
deriving DecidableEq, Repr

/-- `calculatePopularity`: vote-count thresholds 10000 / 3000 / 500 (or
popularity 100 / 50 / 20) map to 20 / 16 / 12, else 6. -/
def calculatePopularity (c : Candidate) : PopularityResult :=
  if c.voteCount ≥ 10000 ∨ c.popularity ≥ 100 then
    { score := 20, tier := PopularityTier.blockbuster }
  else if c.voteCount ≥ 3000 ∨ c.popularity ≥ 50 then
    { score := 16, tier := PopularityTier.popular }
  else if c.voteCount ≥ 500 ∨ c.popularity ≥ 20 then
    { score := 12, tier := PopularityTier.known }
  else
    { score := 6, tier := PopularityTier.obscure }

/-- Result of `calculateUniqueness`. -/
structure UniquenessResult where
  score : ℚ
  alternativeCount : ℕ
deriving DecidableEq, Repr

/-- The strong-alternative filter: another candidate with at least 100 votes
and at least 30% of the best match's votes. -/
def strongAlternatives (candidates : List Candidate) (bestMatch : Candidate) :
    List Candidate :=
  candidates.filter (fun c =>
    c.id ≠ bestMatch.id ∧ c.voteCount ≥ 100 ∧
      (c.voteCount : ℚ) ≥ (bestMatch.voteCount : ℚ) * (3 / 10))

/-- `calculateUniqueness`: 0 / 1 / ≤3 / more strong alternatives score
10 / 7 / 4 / 2. -/
def calculateUniqueness (candidates : List Candidate) (bestMatch : Candidate) :
    UniquenessResult :=
  let alternativeCount := (strongAlternatives candidates bestMatch).length
  if alternativeCount = 0 then { score := 10, alternativeCount := 0 }
  else if alternativeCount = 1 then { score := 7, alternativeCount := 1 }
  else if alternativeCount ≤ 3 then { score := 4, alternativeCount := alternativeCount }
  else { score := 2, alternativeCount := alternativeCount }

/-- `calculateRelevance`: flat bonus for a fixed popular-language allowlist. -/
def calculateRelevance (c : Candidate) : ℚ :=
  if c.originalLanguage ∈ ["en", "hi", "ko", "ja", "es", "fr", "te", "ta"] then 10 else 6

/-- `calculateFactors`: the five independent factors. -/
def calculateFactors (ctx : MatchContext) (m : Candidate) : ConfidenceFactors :=
  let titleResult := calculateTitleMatch ctx.extractedTitle m
  let yearResult := calculateYearMatch ctx.extractedYear ctx.yearProvided m
  let popularityResult := calculatePopularity m
  let uniquenessResult := calculateUniqueness ctx.candidates m
  let relevanceResult := calculateRelevance m
  { titleMatch := titleResult.score
    titleMatchType := titleResult.type
    yearMatch := yearResult.score
    yearMatchType := yearResult.type
    popularity := popularityResult.score
    popularityTier := popularityResult.tier
    uniqueness := uniquenessResult.score
    alternativeCount := uniquenessResult.alternativeCount
    relevance := relevanceResult }

/-- `determineLevel`: exact title + exact year always `exact`; ≥3 strong
alternatives with a non-exact title always `ambiguous`; else the 90/75/55/35
thresholds. -/
def determineLevel (score : ℚ) (factors : ConfidenceFactors) : ConfidenceLevel :=
  if factors.titleMatchType = TitleMatchType.exact ∧
      factors.yearMatchType = YearMatchType.exact then ConfidenceLevel.exact
  else if factors.alternativeCount ≥ 3 ∧
      factors.titleMatchType ≠ TitleMatchType.exact then ConfidenceLevel.ambiguous
  else if score ≥ CONFIDENCE_THRESHOLDS.exact then ConfidenceLevel.exact
  else if score ≥ CONFIDENCE_THRESHOLDS.high then ConfidenceLevel.high
  else if score ≥ CONFIDENCE_THRESHOLDS.medium then ConfidenceLevel.medium
  else if score ≥ CONFIDENCE_THRESHOLDS.low then ConfidenceLevel.low
  else ConfidenceLevel.ambiguous

/-- `generateAlternatives`: every candidate other than the best match,
capped at 4, projected to an `AlternativeMatch`. -/
def generateAlternatives (candidates : List Candidate) (bestMatch : Option Candidate) :
    List AlternativeMatch :=
  ((candidates.filter (fun c =>
      match bestMatch with
      | none => true
      | some b => c.id ≠ b.id)).take 4).map (fun c =>
    { id := c.id
      title := c.title
      year := c.releaseYear
      language := c.originalLanguage
      type := if c.isMovie then MediaType.movie else MediaType.tv
      confidence := jsRound ((c.voteCount : ℚ) / 100) })

/-- `generateMediumConfidenceNote` (the source also receives the query
string, which its body never reads; that parameter is omitted). -/
def generateMediumConfidenceNote (m : Option Candidate) : String :=
  match m with
  | none => ""
  | some c =>
    let year := match c.releaseYear with
      | some y => " (" ++ toString y ++ ")"
      | none => ""
    "I\x27m showing recommendations based on **" ++ c.title ++ year ++
      "**. Let me know if you meant a different movie!"

/-- `generateLowConfidenceQuestion`. -/
def generateLowConfidenceQuestion (m : Option Candidate) (query : String) : String :=
  match m with
  | none =>
    "I couldn\x27t find a movie matching \"" ++ query ++
      "\". Could you provide more details or check the spelling?"
  | some c =>
    let matchYear := match c.releaseYear with
      | some y => toString y
      | none => "unknown year"
    "Did you mean **" ++ c.title ++ "** (" ++ matchYear ++
      ")? If not, please provide more details like the release year or director."

/-- `generateAmbiguousQuestion`: numbers up to four candidates. -/
def generateAmbiguousQuestion (candidates : List Candidate) (query : String) : String :=
  let topCandidates := candidates.take 4
  if topCandidates.isEmpty then
    "I couldn\x27t find any movies matching \"" ++ query ++
      "\". Could you check the spelling or provide more details?"
  else
    let options := topCandidates.enum.map (fun p =>
      let c := p.2
      let year := match c.releaseYear with
        | some y => toString y
        | none => "?"
      toString (p.1 + 1) ++ ". **" ++ c.title ++ "** (" ++ year ++ ") [" ++
        asciiUpper c.originalLanguage ++ "]")
    "I found multiple movies matching \"" ++ query ++
      "\". Which one did you mean?\n\n" ++ String.intercalate "\n" options ++
      "\n\nJust reply with the number or provide the release year for clarity."

/-- `generateExplanation` (the source also receives the confidence level,
which its body never reads; that parameter is omitted). -/
def generateExplanation (factors : ConfidenceFactors) (m : Candidate)
    (yearProvided : Bool) : String :=
  let title := m.title
  let titlePart := match factors.titleMatchType with
    | TitleMatchType.exact => "Exact title match for \"" ++ title ++ "\""
    | TitleMatchType.caseInsensitive => "Title matched \"" ++ title ++ "\""
    | TitleMatchType.partialMatch => "Partial title match found: \"" ++ title ++ "\""
    | TitleMatchType.fuzzy => "Best fuzzy match: \"" ++ title ++ "\""
  let parts := [titlePart] ++
    (if yearProvided ∧ factors.yearMatchType = YearMatchType.exact then
      ["year confirmed"]
    else if yearProvided ∧ factors.yearMatchType = YearMatchType.close then
      ["year approximately matches"]
    else []) ++
    (if factors.popularityTier = PopularityTier.blockbuster then
      ["widely recognized title"] else []) ++
    (if factors.alternativeCount > 0 then
      [toString factors.alternativeCount ++ " other possible match" ++
        (if factors.alternativeCount > 1 then "es" else "")]
    else [])
  String.intercalate ", " parts

/-- `generateDisplayLabel` (the source also receives the numeric score,
which its body never reads; that parameter is omitted). -/
def generateDisplayLabel (level : ConfidenceLevel) : String :=
  match level with
  | ConfidenceLevel.exact => "✓ Matched exactly"
  | ConfidenceLevel.high => "✓ Matched with high confidence"
  | ConfidenceLevel.medium => "○ Matched with moderate confidence"
  | ConfidenceLevel.low => "? Low confidence match"
  | ConfidenceLevel.ambiguous => "? Multiple possible matches"

/-- `determineBehavior`: fixed behavior contract per confidence level (the
source also receives the factors, which its body never reads; that
parameter is omitted). -/
def determineBehavior (level : ConfidenceLevel) (ctx : MatchContext) :
    ConfidenceBehavior :=
  match level with
  | ConfidenceLevel.exact =>
    { shouldProceed := true
      shouldClarify := false
      recommendationStrictness := Strictness.strict
      showConfidenceIndicator := false
      action := BehaviorAction.recommend
      clarificationMessage := none
      alternatives := none }
  | ConfidenceLevel.high =>
    { shouldProceed := true
      shouldClarify := false
      recommendationStrictness := Strictness.strict
      showConfidenceIndicator := true
      action := BehaviorAction.recommend
      clarificationMessage := none
      alternatives := none }
  | ConfidenceLevel.medium =>
    { shouldProceed := true
      shouldClarify := false
      recommendationStrictness := Strictness.moderate
      showConfidenceIndicator := true
      action := BehaviorAction.recommend
      clarificationMessage := some (generateMediumConfidenceNote ctx.bestMatch)
      alternatives := none }
  | ConfidenceLevel.low =>
    { shouldProceed := true
      shouldClarify := true
      recommendationStrictness := Strictness.flexible
      showConfidenceIndicator := true
      action := BehaviorAction.confirm
      clarificationMessage :=
        some (generateLowConfidenceQuestion ctx.bestMatch ctx.extractedTitle)
      alternatives := some (generateAlternatives ctx.candidates ctx.bestMatch) }
  | ConfidenceLevel.ambiguous =>
    { shouldProceed := false
      shouldClarify := true
      recommendationStrictness := Strictness.flexible
      showConfidenceIndicator := true
      action := BehaviorAction.clarify
      clarificationMessage :=
        some (generateAmbiguousQuestion ctx.candidates ctx.extractedTitle)
      alternatives := some (generateAlternatives ctx.candidates ctx.bestMatch) }

/-- The "check the spelling" message of the dedicated no-match result. -/
def noMatchMessage (query : String) : String :=
  "I couldn\x27t find any movies or shows matching \"" ++ query ++
    "\". Could you check the spelling or provide more details?"

/-- `createNoMatchScore`: dedicated zero-score ambiguous result. -/
def createNoMatchScore (query : String) : ConfidenceScore :=
  { level := ConfidenceLevel.ambiguous
    score := 0
    factors :=
      { titleMatch := 0
        titleMatchType := TitleMatchType.fuzzy
        yearMatch := 0
        yearMatchType := YearMatchType.noneMatch
        popularity := 0
        popularityTier := PopularityTier.obscure
        uniqueness := 0
        alternativeCount := 0
        relevance := 0 }
    behavior :=
      { shouldProceed := false
        shouldClarify := true
        recommendationStrictness := Strictness.flexible
        showConfidenceIndicator := true
        action := BehaviorAction.reject
        clarificationMessage := some (noMatchMessage query)
        alternatives := none }
    explanation := "No matches found"
    displayLabel := some "✗ No match found" }

/-- `calculateConfidenceScore`: the main entry point. -/
def calculateConfidenceScore (ctx : MatchContext) : ConfidenceScore :=
  match ctx.bestMatch with
  | none => createNoMatchScore ctx.extractedTitle
  | some bestMatch =>
    if ctx.candidates.isEmpty then createNoMatchScore ctx.extractedTitle
    else
      let factors := calculateFactors ctx bestMatch
      let totalScore := factors.titleMatch + factors.yearMatch + factors.popularity +
        factors.uniqueness + factors.relevance
      let level := determineLevel totalScore factors
      { level := level
        score := totalScore
        factors := factors
        behavior := determineBehavior level ctx
        explanation := generateExplanation factors bestMatch ctx.yearProvided
        displayLabel := some (generateDisplayLabel level) }

/-- `storytellingStyle` union of the `CinematicProfile` interface. -/
inductive StorytellingStyle where
  | commercialMasala
  | actionSpectacle
  | emotionalDrama
  | thrillerSuspense
  | comedyEntertainment
  | artHouse
  | mixed
deriving DecidableEq, Repr

/-- `eraFlexibility` values of the cultural filter rules. -/
inductive EraFlexibility where
  | strict
  | moderate
  | flexible
deriving DecidableEq, Repr

/-- The fields of the analyzer's `CinematicProfile` that
`determineEraFlexibility` and the claims about it read (the remaining
fields — pacing, themes, thematic flags, production and star-power data —
play no role in era flexibility). -/
structure CinematicProfile where
  storytellingStyle : StorytellingStyle
  massAppealScore : ℚ
  releaseEra : ReleaseEra
  releaseYear : Option ℤ
deriving DecidableEq, Repr

/-- `determineEraFlexibility`: strict for recent high-mass-appeal
references; moderate for 2010s references with mass appeal ≥ 70; flexible
for classics or art-house; else moderate. -/
def determineEraFlexibility (profile : CinematicProfile) : EraFlexibility :=
  if profile.releaseEra = ReleaseEra.recent ∧ profile.massAppealScore ≥ 85 then
    EraFlexibility.strict
  else if profile.releaseEra = ReleaseEra.era2010s ∧ profile.massAppealScore ≥ 70 then
    EraFlexibility.moderate
  else if profile.releaseEra = ReleaseEra.classic ∨
      profile.storytellingStyle = StorytellingStyle.artHouse then
    EraFlexibility.flexible
  else
    EraFlexibility.moderate

/-- One mutation of a preference-learning state: a `recordFeedback` or a
`removeFeedback` call, carrying the call-time data (`Date.now()`, the fresh
record id, and the recency-multiplier function of that moment). -/
inductive LearningOp where
  | record (recency : ℚ → ℚ) (now : ℚ) (freshId : String)
      (attributes : MovieAttributes) (feedback : FeedbackType)
      (referenceMovieId : Option ℤ)
  | remove (recency : ℚ → ℚ) (now : ℚ) (mediaId : ℤ) (mediaType : MediaType)

/-- Apply one learning operation to a state. -/
def applyOp (state : PreferenceLearningState) : LearningOp → PreferenceLearningState
  | LearningOp.record recency now freshId attributes feedback referenceMovieId =>
    recordFeedback recency now freshId state attributes feedback referenceMovieId
  | LearningOp.remove recency now mediaId mediaType =>
    removeFeedback recency now state mediaId mediaType

/-- Apply a sequence of learning operations, left to right. -/
def runOps (state : PreferenceLearningState) (ops : List LearningOp) :
    PreferenceLearningState :=
  ops.foldl applyOp state

/-- Every weight stored in an association-list map lies in
`[-maxWeight, +maxWeight]`. -/
def entriesInRange {K : Type} (maxWeight : ℚ) (m : List (K × ℚ)) : Prop :=
  ∀ p ∈ m, -maxWeight ≤ p.2 ∧ p.2 ≤ maxWeight

/-- Every weight of every attribute map lies in `[-maxWeight, +maxWeight]`. -/
def weightsInRange (maxWeight : ℚ) (w : AttributeWeights) : Prop :=
  entriesInRange maxWeight w.genres ∧
  entriesInRange maxWeight w.languages ∧
  entriesInRange maxWeight w.industries ∧
  entriesInRange maxWeight w.eras ∧
  entriesInRange maxWeight w.narrativeScales ∧
  entriesInRange maxWeight w.audienceTypes ∧
  entriesInRange maxWeight w.themes

instance {K : Type} (maxWeight : ℚ) (m : List (K × ℚ)) :
    Decidable (entriesInRange maxWeight m) := by
  unfold entriesInRange; infer_instance

instance (maxWeight : ℚ) (w : AttributeWeights) :
    Decidable (weightsInRange maxWeight w) := by
  unfold weightsInRange; infer_instance

/-- Number of records in a history with a given feedback value. -/
def countFeedback (value : FeedbackType) (history : List UserFeedback) : ℕ :=
  history.countP (fun fb => fb.feedback = value)

/-- A learning state's counters agree with the like/dislike counts of its
feedback history. -/
def countersOk (s : PreferenceLearningState) : Prop :=
  s.totalLikes = (countFeedback FeedbackType.like s.feedbackHistory : ℤ) ∧
  s.totalDislikes = (countFeedback FeedbackType.dislike s.feedbackHistory : ℤ)

/-! ### Concrete instances used by witnesses and counterexamples -/

/-- A Telugu action item used as concrete liked content. -/
def teluguAttrs (i : ℤ) : MovieAttributes :=
  { id := i
    title := "m"
    type := MediaType.movie
    genreIds := []
    originalLanguage := "te"
    industry := CinemaIndustry.tollywood
    releaseEra := ReleaseEra.era2010s
    releaseYear := some 2015
    voteAverage := 8
    popularity := 50
    themes := none
    narrativeScale := none
    audienceType := none }

/-- `n` `like` records on distinct Telugu items, all at time 0 (age 0, so
the recency multiplier `pow(decayFactor, 0)` is 1). -/
def teluguLikeOps (n : ℕ) : List LearningOp :=
  (List.range n).map (fun i =>
    LearningOp.record (fun _ => 1) 0 (toString i) (teluguAttrs i) FeedbackType.like none)

/-- The state after six Telugu likes: the `te` language weight saturates at
`maxWeight`. -/
def sixLikesState : PreferenceLearningState :=
  runOps (createEmptyState 0) (teluguLikeOps 6)

/-- A candidate that shares only its original language with the liked items:
its genre, industry and era carry no learned weight. -/
def languageOnlyCandidate : MovieAttributes :=
  { id := 100
    title := "c"
    type := MediaType.movie
    genreIds := [28]
    originalLanguage := "te"
    industry := CinemaIndustry.hollywood
    releaseEra := ReleaseEra.recent
    releaseYear := some 2024
    voteAverage := 7
    popularity := 10
    themes := none
    narrativeScale := none
    audienceType := none }

/-- A session with `minFeedbackThreshold` raised to 10 and four likes: below
threshold, yet with at least three likes so the exploration bonus is active. -/
def lowThresholdState : PreferenceLearningState :=
  runOps { createEmptyState 0 with
            config := { DEFAULT_CONFIG with minFeedbackThreshold := 10 } }
    (teluguLikeOps 4)

/-- A session with exactly two feedback records (below the default
threshold of 3). -/
def twoLikesState : PreferenceLearningState :=
  runOps (createEmptyState 0) (teluguLikeOps 2)

/-- A single `like` record at timestamp 0. -/
def oneLikeRecord : UserFeedback :=
  { id := "f"
    mediaId := 1
    mediaType := MediaType.movie
    title := "m"
    feedback := FeedbackType.like
    attributes := teluguAttrs 1
    referenceMovieId := none
    timestamp := 0 }

/-- A state holding the one-like history. -/
def oneLikeState : PreferenceLearningState :=
  { createEmptyState 0 with feedbackHistory := [oneLikeRecord] }

/-- The one-like state with stale weights and counters: same history and
config as `oneLikeState`, different everything else. -/
def oneLikeStateStale : PreferenceLearningState :=
  { oneLikeState with
    attributeWeights := { EMPTY_WEIGHTS with languages := [("en", 1 / 2)] }
    totalLikes := 99
    totalDislikes := 7 }

/-- A 2010s art-house profile with mass appeal 70. -/
def artHouse2010sProfile : CinematicProfile :=
  { storytellingStyle := StorytellingStyle.artHouse
    massAppealScore := 70
    releaseEra := ReleaseEra.era2010s
    releaseYear := some 2015 }

/-- A ranked item with a given id and exploration bonus. -/
def mkItem (i : ℤ) (b : ℚ) : RankedItem :=
  { id := i, explorationBonus := b, finalScore := 100 - i }

/-- Twelve ranked items: a homogeneous top ten, an exploratory eleventh
(bonus 3) and a plain twelfth. -/
def diversityItems : List RankedItem :=
  (List.range 10).map (fun i => mkItem i 0) ++ [mkItem 10 3, mkItem 11 0]

/-- A session with six likes (diversity pass active). -/
def diversityState : PreferenceLearningState :=
  { createEmptyState 0 with totalLikes := 6 }

/-- Factors of an exact title and exact year match. -/
def exactTitleYearFactors : ConfidenceFactors :=
  { titleMatch := 40
    titleMatchType := TitleMatchType.exact
    yearMatch := 20
    yearMatchType := YearMatchType.exact
    popularity := 20
    popularityTier := PopularityTier.blockbuster
    uniqueness := 10
    alternativeCount := 0
    relevance := 10 }

/-- Factors of a non-exact title with three strong alternatives. -/
def crowdedFactors : ConfidenceFactors :=
  { titleMatch := 38
    titleMatchType := TitleMatchType.caseInsensitive
    yearMatch := 20
    yearMatchType := YearMatchType.exact
    popularity := 20
    popularityTier := PopularityTier.blockbuster
    uniqueness := 4
    alternativeCount := 3
    relevance := 10 }

/-- A match context whose catalog search came back empty. -/
def noCandidatesCtx : MatchContext :=
  { extractedTitle := "Temper"
    extractedYear := none
    yearProvided := false
    candidates := []
    bestMatch := none
    preferMovies := true }

/-- A candidate released in 2015. -/
def year2015Candidate : Candidate :=
  { id := 1
    isMovie := true
    title := "Baahubali: The Beginning"
    originalTitle := none
    releaseYear := some 2015
    originalLanguage := "te"
    voteCount := 20000
    popularity := 150 }

/-- A recent profile with mass appeal 90. -/
def recentBlockbusterProfile : CinematicProfile :=
  { storytellingStyle := StorytellingStyle.actionSpectacle
    massAppealScore := 90
    releaseEra := ReleaseEra.recent
    releaseYear := some 2023 }

/-- A classic-era profile with modest mass appeal. -/
def classicProfile : CinematicProfile :=
  { storytellingStyle := StorytellingStyle.emotionalDrama
    massAppealScore := 60
    releaseEra := ReleaseEra.classic
    releaseYear := some 1975 }

/-! ### Helper lemmas -/

lemma jsMax_jsMin_bounds (lo hi x : ℚ) (h : lo ≤ hi) :
    lo ≤ jsMax lo (jsMin hi x) ∧ jsMax lo (jsMin hi x) ≤ hi := by
  unfold jsMax jsMin
  split_ifs <;> constructor <;> linarith

lemma entriesInRange_wcap {K : Type} (mw : ℚ) (h : 0 ≤ mw) (m : List (K × ℚ)) :
    entriesInRange mw (wcap mw m) := by
  intro p hp
  unfold wcap at hp
  rcases List.mem_map.mp hp with ⟨q, _, rfl⟩
  have := jsMax_jsMin_bounds (-mw) mw q.2 (by linarith)
  exact this

lemma weightsInRange_capAll (mw : ℚ) (h : 0 ≤ mw) (w : AttributeWeights) :
    weightsInRange mw (capAllWeights mw w) :=
  ⟨entriesInRange_wcap mw h _, entriesInRange_wcap mw h _, entriesInRange_wcap mw h _,
   entriesInRange_wcap mw h _, entriesInRange_wcap mw h _, entriesInRange_wcap mw h _,
   entriesInRange_wcap mw h _⟩

lemma recalculateWeights_config (r : ℚ → ℚ) (s : PreferenceLearningState) :
    (recalculateWeights r s).config = s.config := rfl

lemma recalculateWeights_history (r : ℚ → ℚ) (s : PreferenceLearningState) :
    (recalculateWeights r s).feedbackHistory = s.feedbackHistory := rfl

lemma recalculateWeights_totalLikes (r : ℚ → ℚ) (s : PreferenceLearningState) :
    (recalculateWeights r s).totalLikes = s.totalLikes := rfl

lemma recalculateWeights_totalDislikes (r : ℚ → ℚ) (s : PreferenceLearningState) :
    (recalculateWeights r s).totalDislikes = s.totalDislikes := rfl

lemma recalculateWeights_weights (r : ℚ → ℚ) (s : PreferenceLearningState) :
    (recalculateWeights r s).attributeWeights =
      capAllWeights s.config.maxWeight
        (s.feedbackHistory.foldl (processFeedback s.config r) EMPTY_WEIGHTS) := rfl

/-- `recordFeedback` always ends in a `recalculateWeights` call on a state
with the same config. -/
lemma recordFeedback_shape (r : ℚ → ℚ) (now : ℚ) (freshId : String)
    (s : PreferenceLearningState) (attrs : MovieAttributes) (fb : FeedbackType)
    (refId : Option ℤ) :
    ∃ s', recordFeedback r now freshId s attrs fb refId = recalculateWeights r s' ∧
      s'.config = s.config := by
  unfold recordFeedback
  split
  · exact ⟨_, rfl, rfl⟩
  · exact ⟨_, rfl, rfl⟩

/-- `removeFeedback` returns the state unchanged or ends in a
`recalculateWeights` call on a state with the same config. -/
lemma removeFeedback_shape (r : ℚ → ℚ) (now : ℚ)
    (s : PreferenceLearningState) (mediaId : ℤ) (mediaType : MediaType) :
    removeFeedback r now s mediaId mediaType = s ∨
    ∃ s', removeFeedback r now s mediaId mediaType = recalculateWeights r s' ∧
      s'.config = s.config := by
  unfold removeFeedback
  split
  · exact Or.inl rfl
  · exact Or.inr ⟨_, rfl, rfl⟩

lemma applyOp_range (cfg : LearningConfig) (hmw : 0 ≤ cfg.maxWeight)
    (s : PreferenceLearningState)
    (h : s.config = cfg ∧ weightsInRange cfg.maxWeight s.attributeWeights)
    (op : LearningOp) :
    (applyOp s op).config = cfg ∧
      weightsInRange cfg.maxWeight (applyOp s op).attributeWeights := by
  cases op with
  | record r now freshId attrs fb refId =>
    obtain ⟨s', he, hc⟩ := recordFeedback_shape r now freshId s attrs fb refId
    have happ : applyOp s (LearningOp.record r now freshId attrs fb refId) =
        recalculateWeights r s' := he
    rw [happ]
    constructor
    · rw [recalculateWeights_config, hc, h.1]
    · rw [recalculateWeights_weights, hc, h.1]
      exact weightsInRange_capAll _ hmw _
  | remove r now mediaId mediaType =>
    rcases removeFeedback_shape r now s mediaId mediaType with he | ⟨s', he, hc⟩
    · have happ : applyOp s (LearningOp.remove r now mediaId mediaType) = s := he
      rw [happ]; exact h
    · have happ : applyOp s (LearningOp.remove r now mediaId mediaType) =
          recalculateWeights r s' := he
      rw [happ]
      constructor
      · rw [recalculateWeights_config, hc, h.1]
      · rw [recalculateWeights_weights, hc, h.1]
        exact weightsInRange_capAll _ hmw _

lemma runOps_range (cfg : LearningConfig) (hmw : 0 ≤ cfg.maxWeight) :
    ∀ (ops : List LearningOp) (s : PreferenceLearningState),
      s.config = cfg ∧ weightsInRange cfg.maxWeight s.attributeWeights →
      (runOps s ops).config = cfg ∧
        weightsInRange cfg.maxWeight (runOps s ops).attributeWeights := by
  intro ops
  induction ops with
  | nil => intro s h; exact h
  | cons op ops ih =>
    intro s h
    exact ih (applyOp s op) (applyOp_range cfg hmw s h op)

/-! ### C3 -/

/-- C3: for every sequence of `recordFeedback` / `removeFeedback` operations
applied to an initially empty state whose config has `maxWeight ≥ 0`, every
attribute weight in every map of the resulting `attributeWeights` lies in
`[-maxWeight, +maxWeight]`. -/
theorem weight_clamping_invariant (cfg : LearningConfig) (now : ℚ)
    (hmw : 0 ≤ cfg.maxWeight) (ops : List LearningOp) :
    weightsInRange cfg.maxWeight
      ((runOps { createEmptyState now with config := cfg } ops).attributeWeights) := by
  refine (runOps_range cfg hmw ops _ ⟨rfl, ?_⟩).2
  refine ⟨?_, ?_, ?_, ?_, ?_, ?_, ?_⟩ <;> intro p hp <;> simp [createEmptyState, EMPTY_WEIGHTS] at hp

/-- Witness for C3 at a concrete input: the default config and a single
`like` record. -/
theorem weight_clamping_invariant_witness :
    (0 : ℚ) ≤ DEFAULT_CONFIG.maxWeight ∧
    weightsInRange DEFAULT_CONFIG.maxWeight
      (runOps { createEmptyState 0 with config := DEFAULT_CONFIG }
        [LearningOp.record (fun _ => 1) 0 "fb1"
          { id := 7, title := "RRR", type := MediaType.movie, genreIds := [28, 18],
            originalLanguage := "te", industry := CinemaIndustry.tollywood,
            releaseEra := ReleaseEra.recent, releaseYear := some 2022,
            voteAverage := 8, popularity := 500, themes := some [ThematicElement.heroism],
            narrativeScale := some NarrativeScale.epic,
            audienceType := some AudienceType.mass }
          FeedbackType.like none]).attributeWeights :=
  ⟨by norm_num [DEFAULT_CONFIG],
   weight_clamping_invariant DEFAULT_CONFIG 0 (by norm_num [DEFAULT_CONFIG]) _⟩

/-! ### C4 -/

lemma countP_eraseIdx (p : UserFeedback → Bool) :
    ∀ (l : List UserFeedback) (i : ℕ), (h : i < l.length) →
      (l.eraseIdx i).countP p + (if p (l.get ⟨i, h⟩) then 1 else 0) = l.countP p := by
  intro l
  induction l with
  | nil => intro i h; simp at h
  | cons a l ih =>
    intro i h
    cases i with
    | zero => simp [List.eraseIdx, List.countP_cons]
    | succ i =>
      have hi : i < l.length := by simpa using h
      have := ih i hi
      simp only [List.eraseIdx, List.countP_cons, List.get]
      omega

lemma countP_le_of_getElem (p : UserFeedback → Bool) (l : List UserFeedback)
    (i : ℕ) (h : i < l.length) (hp : p l[i] = true) : 1 ≤ l.countP p := by
  have : 0 < l.countP p := List.countP_pos_iff.mpr ⟨l[i], List.getElem_mem h, hp⟩
  omega

lemma countP_set_int (p : UserFeedback → Bool) (l : List UserFeedback)
    (i : ℕ) (a : UserFeedback) (h : i < l.length) :
    ((l.set i a).countP p : ℤ) =
      (l.countP p : ℤ) - (if p l[i] then 1 else 0) + (if p a then 1 else 0) := by
  have hs := List.countP_set p l i a h
  by_cases h1 : p l[i] = true
  · have hle := countP_le_of_getElem p l i h h1
    simp only [h1, if_true] at hs ⊢
    rw [hs]
    by_cases h2 : p a = true <;> simp only [h2, if_true, if_false] <;>
      push_cast [Nat.cast_sub hle] <;> ring
  · simp only [h1, if_false] at hs ⊢
    push_cast [hs]
    omega

lemma recordFeedback_countersOk (r : ℚ → ℚ) (now : ℚ) (freshId : String)
    (s : PreferenceLearningState) (attrs : MovieAttributes) (fb : FeedbackType)
    (refId : Option ℤ) (h : countersOk s) :
    countersOk (recordFeedback r now freshId s attrs fb refId) := by
  unfold recordFeedback
  cases hidx : s.feedbackHistory.findIdx?
      (fun x => decide (x.mediaId = attrs.id ∧ x.mediaType = attrs.type)) with
  | none =>
    simp only [countersOk, recalculateWeights_totalLikes, recalculateWeights_totalDislikes,
      recalculateWeights_history, countFeedback, List.countP_append, List.countP_cons,
      List.countP_nil, h.1, h.2]
    cases fb <;> simp [countFeedback]
  | some i =>
    obtain ⟨hlen, hpv, -⟩ := List.findIdx?_eq_some_iff_getElem.mp hidx
    have hget : s.feedbackHistory.get? i = some s.feedbackHistory[i] := by
      rw [List.get?_eq_getElem?]
      exact List.getElem?_eq_getElem hlen
    simp only [countersOk, recalculateWeights_totalLikes, recalculateWeights_totalDislikes,
      recalculateWeights_history, hget, Option.map_some, Option.getD_some]
    constructor
    · rw [countFeedback, countP_set_int _ _ _ _ hlen, ← countFeedback, ← h.1]
      cases hf : s.feedbackHistory[i].feedback <;> cases fb <;> simp [hf] <;> ring
    · rw [countFeedback, countP_set_int _ _ _ _ hlen, ← countFeedback, ← h.2]
      cases hf : s.feedbackHistory[i].feedback <;> cases fb <;> simp [hf] <;> ring

lemma removeFeedback_countersOk (r : ℚ → ℚ) (now : ℚ)
    (s : PreferenceLearningState) (mediaId : ℤ) (mediaType : MediaType)
    (h : countersOk s) :
    countersOk (removeFeedback r now s mediaId mediaType) := by
  unfold removeFeedback
  cases hidx : s.feedbackHistory.findIdx?
      (fun x => decide (x.mediaId = mediaId ∧ x.mediaType = mediaType)) with
  | none => exact h
  | some i =>
    obtain ⟨hlen, hpv, -⟩ := List.findIdx?_eq_some_iff_getElem.mp hidx
    have hget : s.feedbackHistory.get? i = some s.feedbackHistory[i] := by
      rw [List.get?_eq_getElem?]
      exact List.getElem?_eq_getElem hlen
    have herase := fun p => countP_eraseIdx p s.feedbackHistory i hlen
    simp only [countersOk, recalculateWeights_totalLikes, recalculateWeights_totalDislikes,
      recalculateWeights_history, hget, Option.map_some, Option.getD_some]
    constructor
    · have h1 := herase (fun x => decide (x.feedback = FeedbackType.like))
      rw [h.1]
      simp only [countFeedback, List.get_eq_getElem] at h1 ⊢
      cases hf : s.feedbackHistory[i].feedback <;> simp [hf] at h1 ⊢ <;> omega
    · have h1 := herase (fun x => decide (x.feedback = FeedbackType.dislike))
      rw [h.2]
      simp only [countFeedback, List.get_eq_getElem] at h1 ⊢
      cases hf : s.feedbackHistory[i].feedback <;> simp [hf] at h1 ⊢ <;> omega

lemma runOps_countersOk (ops : List LearningOp) :
    ∀ (s : PreferenceLearningState), countersOk s → countersOk (runOps s ops) := by
  induction ops with
  | nil => intro s h; exact h
  | cons op ops ih =>
    intro s h
    refine ih (applyOp s op) ?_
    cases op with
    | record r now freshId attrs fb refId =>
      exact recordFeedback_countersOk r now freshId s attrs fb refId h
    | remove r now mediaId mediaType =>
      exact removeFeedback_countersOk r now s mediaId mediaType h

/-- C4: after any sequence of `recordFeedback` / `removeFeedback` operations
on an initially empty state, `totalLikes` equals the number of `like`
records and `totalDislikes` the number of `dislike` records in
`feedbackHistory` (replacement adjusts the counters by the delta, never
double-counting). -/
theorem counter_consistency (now : ℚ) (ops : List LearningOp) :
    (runOps (createEmptyState now) ops).totalLikes =
      (countFeedback FeedbackType.like (runOps (createEmptyState now) ops).feedbackHistory : ℤ) ∧
    (runOps (createEmptyState now) ops).totalDislikes =
      (countFeedback FeedbackType.dislike (runOps (createEmptyState now) ops).feedbackHistory : ℤ) :=
  runOps_countersOk ops (createEmptyState now) ⟨rfl, rfl⟩

/-! ### C5 -/

/-- C5 (amended): weight recomputation reads only the feedback history, the
configuration and the recency multipliers of the evaluation moment — never
the previously stored `attributeWeights` or the counters — so two
recomputations over an identical history, config and evaluation time agree
on every attribute key. -/
theorem recalculation_pure (recency : ℚ → ℚ) (s1 s2 : PreferenceLearningState)
    (hh : s1.feedbackHistory = s2.feedbackHistory) (hc : s1.config = s2.config) :
    (recalculateWeights recency s1).attributeWeights =
      (recalculateWeights recency s2).attributeWeights := by
  simp only [recalculateWeights_weights, hh, hc]

/-- Witness for C5: recomputing over the one-like history from a state with
stale weights and wrong counters gives the same weights as recomputing from
the clean state. -/
theorem recalculation_pure_witness :
    (recalculateWeights (fun _ => 1) oneLikeState).attributeWeights =
      (recalculateWeights (fun _ => 1) oneLikeStateStale).attributeWeights :=
  recalculation_pure (fun _ => 1) oneLikeState oneLikeStateStale rfl rfl

/-- C5 counterexample: recomputation is not a pure function of the history
and configuration alone — it also reads `Date.now()` through the recency
decay.  The same one-like history (timestamp 0, default config) recomputed
at age 0 (multiplier `pow(0.95, 0) = 1`) and at age one week (multiplier
`pow(0.95, 1) = 0.95`) yields different weights (3/20 versus 57/400 on the
`te` language key). -/
theorem recalculation_time_dependent_cex :
    (recalculateWeights (fun _ => 1) oneLikeState).attributeWeights ≠
      (recalculateWeights (fun _ => 19 / 20) oneLikeState).attributeWeights := by
  with_unfolding_all decide

/-! ### C2 -/

/-- C2 (amended): for every learning state whose total feedback count is
below `minFeedbackThreshold`, `calculatePersonalizationScore` returns
`preferenceAdjustment = 0`, confidence `low`, and `finalScore` equal to the
reference score exactly; the exploration bonus is reported in the
`explorationBonus` field but not added to `finalScore` (under the default
threshold of 3 that bonus is itself 0, since `totalLikes < 3`). -/
theorem below_threshold_score (state : PreferenceLearningState)
    (cand : MovieAttributes) (ref : ℚ)
    (h : ((state.totalLikes + state.totalDislikes : ℤ) : ℚ) <
      state.config.minFeedbackThreshold) :
    calculatePersonalizationScore state cand ref =
      { referenceScore := ref
        preferenceAdjustment := 0
        explorationBonus := calculateExplorationBonus state cand
        finalScore := ref
        preferenceConfidence := PrefConfidence.low
        explanation := ["Not enough feedback yet for personalization"] } := by
  unfold calculatePersonalizationScore
  rw [if_pos h]

/-- Witness for C2 at a concrete input: two feedback records under the
default threshold of 3 give back the reference score 50 unchanged. -/
theorem below_threshold_score_witness :
    (((twoLikesState.totalLikes + twoLikesState.totalDislikes : ℤ) : ℚ) <
      twoLikesState.config.minFeedbackThreshold) ∧
    calculatePersonalizationScore twoLikesState languageOnlyCandidate 50 =
      { referenceScore := 50
        preferenceAdjustment := 0
        explorationBonus := calculateExplorationBonus twoLikesState languageOnlyCandidate
        finalScore := 50
        preferenceConfidence := PrefConfidence.low
        explanation := ["Not enough feedback yet for personalization"] } :=
  ⟨by with_unfolding_all decide,
   below_threshold_score twoLikesState languageOnlyCandidate 50
     (by with_unfolding_all decide)⟩

/-- C2 counterexample: the claim that `finalScore` equals the reference
score *plus the reported exploration bonus* fails whenever that bonus is
nonzero, which a raised threshold permits: with `minFeedbackThreshold = 10`
and four likes, the bonus is 3/4 but `finalScore` is the bare reference
score. -/
theorem below_threshold_bonus_not_added_cex :
    (((lowThresholdState.totalLikes + lowThresholdState.totalDislikes : ℤ) : ℚ) <
      lowThresholdState.config.minFeedbackThreshold) ∧
    (calculatePersonalizationScore lowThresholdState languageOnlyCandidate 50).explorationBonus =
      3 / 4 ∧
    (calculatePersonalizationScore lowThresholdState languageOnlyCandidate 50).finalScore ≠
      (calculatePersonalizationScore lowThresholdState languageOnlyCandidate 50).referenceScore +
        (calculatePersonalizationScore lowThresholdState languageOnlyCandidate 50).explorationBonus := by
  refine ⟨?_, ?_, ?_⟩ <;> with_unfolding_all decide

/-! ### C1 -/

lemma wfind_mem {K : Type} [DecidableEq K] {k : K} {m : List (K × ℚ)} {v : ℚ}
    (h : wfind k m = some v) : (k, v) ∈ m := by
  induction m with
  | nil => simp [wfind] at h
  | cons p m ih =>
    rw [wfind] at h
    split at h
    · rename_i heq
      cases h
      cases p
      simp_all
    · simp [ih h]

lemma wfind_abs_le {K : Type} [DecidableEq K] {k : K} {m : List (K × ℚ)} {v : ℚ}
    {mw : ℚ} (hm : entriesInRange mw m) (h : wfind k m = some v) : |v| ≤ mw := by
  have := hm (k, v) (wfind_mem h)
  exact abs_le.mpr this

/-- One contribution step: adding a term of magnitude at most `3/2 · mw` and
incrementing the count preserves the average bound. -/
lemma prefAcc_step_bound {mw s x : ℚ} {c : ℕ} (hmw : 0 ≤ mw)
    (h : |s| ≤ 3 / 2 * mw * c) (hx : |x| ≤ 3 / 2 * mw) :
    |s + x| ≤ 3 / 2 * mw * ((c + 1 : ℕ) : ℚ) := by
  have h1 := abs_add s x
  push_cast
  nlinarith [abs_nonneg s, abs_nonneg x]

lemma genreContrib_fold_bound (aw : AttributeWeights) {mw : ℚ} (hmw : 0 ≤ mw)
    (hg : entriesInRange mw aw.genres) (gids : List ℤ) :
    ∀ acc : PrefAcc, |acc.score| ≤ 3 / 2 * mw * acc.count →
      |(gids.foldl (genreContrib aw) acc).score| ≤
        3 / 2 * mw * ((gids.foldl (genreContrib aw) acc).count : ℚ) := by
  induction gids with
  | nil => intro acc h; exact h
  | cons g gids ih =>
    intro acc h
    rw [List.foldl_cons]
    refine ih (genreContrib aw acc g) ?_
    unfold genreContrib
    cases hf : wfind g aw.genres with
    | none => exact h
    | some w =>
      have hw := wfind_abs_le hg hf
      have : |w| ≤ 3 / 2 * mw := by linarith [abs_nonneg w]
      exact prefAcc_step_bound hmw h this

lemma themeContrib_fold_bound (aw : AttributeWeights) {mw : ℚ} (hmw : 0 ≤ mw)
    (ht : entriesInRange mw aw.themes) (ts : List ThematicElement) :
    ∀ acc : PrefAcc, |acc.score| ≤ 3 / 2 * mw * acc.count →
      |(ts.foldl (themeContrib aw) acc).score| ≤
        3 / 2 * mw * ((ts.foldl (themeContrib aw) acc).count : ℚ) := by
  induction ts with
  | nil => intro acc h; exact h
  | cons t ts ih =>
    intro acc h
    rw [List.foldl_cons]
    refine ih (themeContrib aw acc t) ?_
    unfold themeContrib
    cases hf : wfind t aw.themes with
    | none => exact h
    | some w =>
      have hw := wfind_abs_le ht hf
      have : |w * (1 / 2)| ≤ 3 / 2 * mw := by
        rw [abs_mul]
        have : |w| * |(1 / 2 : ℚ)| ≤ mw * (1 / 2) := by
          rw [show |(1 / 2 : ℚ)| = 1 / 2 by norm_num]
          nlinarith [abs_nonneg w]
        linarith
      exact prefAcc_step_bound hmw h this

/-- The accumulated weighted sum is at most `3/2 · maxWeight` per
contributing attribute (the worst multiplier is the language's 1.5). -/
lemma prefAccOf_bound (aw : AttributeWeights) (cand : MovieAttributes) {mw : ℚ}
    (hmw : 0 ≤ mw) (hw : weightsInRange mw aw) :
    |(prefAccOf aw cand).score| ≤ 3 / 2 * mw * ((prefAccOf aw cand).count : ℚ) := by
  obtain ⟨hg, hl, hi, he, -, -, ht⟩ := hw
  unfold prefAccOf
  have h0 : |(({ score := 0, count := 0, explanation := [] } : PrefAcc)).score| ≤
      3 / 2 * mw * ((({ score := 0, count := 0, explanation := [] } : PrefAcc)).count : ℚ) := by
    simp
  have h1 := genreContrib_fold_bound aw hmw hg cand.genreIds _ h0
  set acc1 := cand.genreIds.foldl (genreContrib aw)
    { score := 0, count := 0, explanation := [] } with hacc1
  have step2 : ∀ acc : PrefAcc, |acc.score| ≤ 3 / 2 * mw * acc.count →
      ∀ w, wfind cand.originalLanguage aw.languages = some w →
      |acc.score + w * (3 / 2)| ≤ 3 / 2 * mw * ((acc.count + 1 : ℕ) : ℚ) := by
    intro acc h w hf
    have hwv := wfind_abs_le hl hf
    have : |w * (3 / 2)| ≤ 3 / 2 * mw := by
      rw [abs_mul, show |(3 / 2 : ℚ)| = 3 / 2 by norm_num]
      nlinarith [abs_nonneg w]
    exact prefAcc_step_bound hmw h this
  cases hf2 : wfind cand.originalLanguage aw.languages with
  | none =>
    cases hf3 : wfind cand.industry aw.industries with
    | none =>
      cases hf4 : wfind cand.releaseEra aw.eras with
      | none =>
        cases h5 : cand.themes with
        | none => simpa [hf2, hf3, hf4, h5] using h1
        | some ts =>
          simp only [hf2, hf3, hf4, h5]
          exact themeContrib_fold_bound aw hmw ht ts _ h1
      | some w4 =>
        have h4 : |acc1.score + w4| ≤ 3 / 2 * mw * ((acc1.count + 1 : ℕ) : ℚ) := by
          have hwv := wfind_abs_le he hf4
          have : |w4| ≤ 3 / 2 * mw := by linarith [abs_nonneg w4]
          exact prefAcc_step_bound hmw h1 this
        cases h5 : cand.themes with
        | none => simpa [hf2, hf3, hf4, h5] using h4
        | some ts =>
          simp only [hf2, hf3, hf4, h5]
          exact themeContrib_fold_bound aw hmw ht ts _ h4
    | some w3 =>
      have h3 : |acc1.score + w3 * (6 / 5)| ≤ 3 / 2 * mw * ((acc1.count + 1 : ℕ) : ℚ) := by
        have hwv := wfind_abs_le hi hf3
        have : |w3 * (6 / 5)| ≤ 3 / 2 * mw := by
          rw [abs_mul, show |(6 / 5 : ℚ)| = 6 / 5 by norm_num]
          nlinarith [abs_nonneg w3]
        exact prefAcc_step_bound hmw h1 this
      cases hf4 : wfind cand.releaseEra aw.eras with
      | none =>
        cases h5 : cand.themes with
        | none => simpa [hf2, hf3, hf4, h5] using h3
        | some ts =>
          simp only [hf2, hf3, hf4, h5]
          exact themeContrib_fold_bound aw hmw ht ts _ h3
      | some w4 =>
        have h4 : |(acc1.score + w3 * (6 / 5)) + w4| ≤
            3 / 2 * mw * ((acc1.count + 1 + 1 : ℕ) : ℚ) := by
          have hwv := wfind_abs_le he hf4
          have : |w4| ≤ 3 / 2 * mw := by linarith [abs_nonneg w4]
          exact prefAcc_step_bound hmw h3 this
        cases h5 : cand.themes with
        | none => simpa [hf2, hf3, hf4, h5] using h4
        | some ts =>
          simp only [hf2, hf3, hf4, h5]
          exact themeContrib_fold_bound aw hmw ht ts _ h4
  | some w2 =>
    have h2 := step2 acc1 h1 w2 hf2
    cases hf3 : wfind cand.industry aw.industries with
    | none =>
      cases hf4 : wfind cand.releaseEra aw.eras with
      | none =>
        cases h5 : cand.themes with
        | none => simpa [hf2, hf3, hf4, h5] using h2
        | some ts =>
          simp only [hf2, hf3, hf4, h5]
          exact themeContrib_fold_bound aw hmw ht ts _ h2
      | some w4 =>
        have h4 : |(acc1.score + w2 * (3 / 2)) + w4| ≤
            3 / 2 * mw * ((acc1.count + 1 + 1 : ℕ) : ℚ) := by
          have hwv := wfind_abs_le he hf4
          have : |w4| ≤ 3 / 2 * mw := by linarith [abs_nonneg w4]
          exact prefAcc_step_bound hmw h2 this
        cases h5 : cand.themes with
        | none => simpa [hf2, hf3, hf4, h5] using h4
        | some ts =>
          simp only [hf2, hf3, hf4, h5]
          exact themeContrib_fold_bound aw hmw ht ts _ h4
    | some w3 =>
      have h3 : |(acc1.score + w2 * (3 / 2)) + w3 * (6 / 5)| ≤
          3 / 2 * mw * ((acc1.count + 1 + 1 : ℕ) : ℚ) := by
        have hwv := wfind_abs_le hi hf3
        have : |w3 * (6 / 5)| ≤ 3 / 2 * mw := by
          rw [abs_mul, show |(6 / 5 : ℚ)| = 6 / 5 by norm_num]
          nlinarith [abs_nonneg w3]
        exact prefAcc_step_bound hmw h2 this
      cases hf4 : wfind cand.releaseEra aw.eras with
      | none =>
        cases h5 : cand.themes with
        | none => simpa [hf2, hf3, hf4, h5] using h3
        | some ts =>
          simp only [hf2, hf3, hf4, h5]
          exact themeContrib_fold_bound aw hmw ht ts _ h3
      | some w4 =>
        have h4 : |((acc1.score + w2 * (3 / 2)) + w3 * (6 / 5)) + w4| ≤
            3 / 2 * mw * ((acc1.count + 1 + 1 + 1 : ℕ) : ℚ) := by
          have hwv := wfind_abs_le he hf4
          have : |w4| ≤ 3 / 2 * mw := by linarith [abs_nonneg w4]
          exact prefAcc_step_bound hmw h3 this
        cases h5 : cand.themes with
        | none => simpa [hf2, hf3, hf4, h5] using h4
        | some ts =>
          simp only [hf2, hf3, hf4, h5]
          exact themeContrib_fold_bound aw hmw ht ts _ h4

/-- The normalized preference lies in `[-45, 45]`: the average magnitude per
contributing attribute is at most `3/2 · maxWeight`, and the rescale factor
is `30 / maxWeight`. -/
lemma normalizedPreferenceOf_bound (state : PreferenceLearningState)
    (cand : MovieAttributes) (hmw : 0 < state.config.maxWeight)
    (hw : weightsInRange state.config.maxWeight state.attributeWeights) :
    |normalizedPreferenceOf state cand| ≤ 45 := by
  unfold normalizedPreferenceOf
  set acc := prefAccOf state.attributeWeights cand with hacc
  have hb := prefAccOf_bound state.attributeWeights cand (le_of_lt hmw) hw
  rw [← hacc] at hb
  by_cases hc : acc.count > 0
  · rw [if_pos hc]
    have hcpos : (0 : ℚ) < (acc.count : ℚ) := by exact_mod_cast hc
    rw [abs_div, abs_mul, abs_div, abs_of_pos hcpos, abs_of_pos hmw,
      show |(30 : ℚ)| = 30 by norm_num]
    rw [div_le_iff hmw]
    have h1 : |acc.score| / (acc.count : ℚ) ≤ 3 / 2 * state.config.maxWeight := by
      rw [div_le_iff hcpos]
      linarith
    nlinarith [abs_nonneg acc.score]
  · rw [if_neg hc]
    norm_num

/-- Rounding to one decimal moves a value by at most `1/20`. -/
lemma jsRound_tenth_abs (x : ℚ) {B : ℚ} (h : |x| ≤ B) :
    |((jsRound (x * 10) : ℤ) : ℚ) / 10| ≤ B + 1 / 20 := by
  unfold jsRound
  obtain ⟨hl, hr⟩ := abs_le.mp h
  have h1 : ((⌊x * 10 + 1 / 2⌋ : ℤ) : ℚ) ≤ x * 10 + 1 / 2 := Int.floor_le _
  have h2 : x * 10 + 1 / 2 - 1 < ((⌊x * 10 + 1 / 2⌋ : ℤ) : ℚ) := Int.sub_one_lt_floor _
  rw [abs_div, show |(10 : ℚ)| = 10 by norm_num, div_le_iff (by norm_num : (0:ℚ) < 10)]
  rw [abs_le]
  constructor <;> linarith

/-- C1 (amended): whenever every stored weight lies in
`[-maxWeight, maxWeight]` (which recomputation guarantees), `maxWeight` is
positive and `preferenceInfluence` is nonnegative, the returned
`preferenceAdjustment` lies within
`[-(45 · preferenceInfluence + 1/20), 45 · preferenceInfluence + 1/20]`.
The claimed `30 · preferenceInfluence` band is exceeded because the
language weight enters the sum with the ×1.5 multiplier while the divisor
counts it as a single attribute; the extra `1/20` comes from rounding the
adjustment to one decimal. -/
theorem preference_adjustment_bound (state : PreferenceLearningState)
    (cand : MovieAttributes) (ref : ℚ)
    (hth : state.config.minFeedbackThreshold ≤
      ((state.totalLikes + state.totalDislikes : ℤ) : ℚ))
    (hw : weightsInRange state.config.maxWeight state.attributeWeights)
    (hmw : 0 < state.config.maxWeight)
    (hinf : 0 ≤ state.config.preferenceInfluence) :
    |(calculatePersonalizationScore state cand ref).preferenceAdjustment| ≤
      45 * state.config.preferenceInfluence + 1 / 20 := by
  unfold calculatePersonalizationScore
  rw [if_neg (not_lt.mpr hth)]
  show |((jsRound (cappedPreferenceOf state cand * 10) : ℤ) : ℚ) / 10| ≤ _
  have hcap : |cappedPreferenceOf state cand| ≤ 45 * state.config.preferenceInfluence := by
    unfold cappedPreferenceOf
    rw [abs_mul, abs_of_nonneg hinf]
    have := normalizedPreferenceOf_bound state cand hmw hw
    nlinarith
  exact jsRound_tenth_abs _ hcap

/-- Witness for C1 at a concrete input: after six Telugu likes (weights in
range by construction), scoring the language-only candidate gives an
adjustment of 11.3, exactly the amended bound `45 · 0.25 + 0.05`. -/
theorem preference_adjustment_bound_witness :
    (sixLikesState.config.minFeedbackThreshold ≤
      ((sixLikesState.totalLikes + sixLikesState.totalDislikes : ℤ) : ℚ)) ∧
    weightsInRange sixLikesState.config.maxWeight sixLikesState.attributeWeights ∧
    (0 : ℚ) < sixLikesState.config.maxWeight ∧
    (0 : ℚ) ≤ sixLikesState.config.preferenceInfluence ∧
    |(calculatePersonalizationScore sixLikesState languageOnlyCandidate
        50).preferenceAdjustment| ≤
      45 * sixLikesState.config.preferenceInfluence + 1 / 20 :=
  ⟨by with_unfolding_all decide, by with_unfolding_all decide,
   by with_unfolding_all decide, by with_unfolding_all decide,
   preference_adjustment_bound sixLikesState languageOnlyCandidate 50
     (by with_unfolding_all decide) (by with_unfolding_all decide)
     (by with_unfolding_all decide) (by with_unfolding_all decide)⟩

/-- C1 counterexample: the claimed band `[-30 · influence, 30 · influence]`
fails.  From an empty state, six `like` records on Telugu items (language
weight saturating at `maxWeight = 0.8`) and a candidate sharing only the
language yield `preferenceAdjustment = 11.3 > 7.5 = 30 · 0.25`, with the
feedback count 6 ≥ `minFeedbackThreshold = 3`. -/
theorem preference_adjustment_bound_cex :
    (sixLikesState.config.minFeedbackThreshold ≤
      ((sixLikesState.totalLikes + sixLikesState.totalDislikes : ℤ) : ℚ)) ∧
    (calculatePersonalizationScore sixLikesState languageOnlyCandidate
        50).preferenceAdjustment >
      30 * sixLikesState.config.preferenceInfluence := by
  constructor <;> with_unfolding_all decide

/-! ### C6 -/

/-- C6: the level returned by the confidence scorer satisfies the two
overrides and, outside them, the 90/75/55/35 threshold mapping. -/
theorem confidence_level_mapping (score : ℚ) (factors : ConfidenceFactors) :
    (factors.titleMatchType = TitleMatchType.exact ∧
        factors.yearMatchType = YearMatchType.exact →
      determineLevel score factors = ConfidenceLevel.exact) ∧
    (factors.alternativeCount ≥ 3 ∧ factors.titleMatchType ≠ TitleMatchType.exact →
      determineLevel score factors = ConfidenceLevel.ambiguous) ∧
    (¬(factors.titleMatchType = TitleMatchType.exact ∧
        factors.yearMatchType = YearMatchType.exact) →
     ¬(factors.alternativeCount ≥ 3 ∧ factors.titleMatchType ≠ TitleMatchType.exact) →
      (determineLevel score factors = ConfidenceLevel.exact ↔ score ≥ 90) ∧
      (determineLevel score factors = ConfidenceLevel.high ↔ 75 ≤ score ∧ score < 90) ∧
      (determineLevel score factors = ConfidenceLevel.medium ↔ 55 ≤ score ∧ score < 75) ∧
      (determineLevel score factors = ConfidenceLevel.low ↔ 35 ≤ score ∧ score < 55) ∧
      (determineLevel score factors = ConfidenceLevel.ambiguous ↔ score < 35)) := by
  unfold determineLevel
  refine ⟨fun h => by rw [if_pos h], fun h => ?_, fun h1 h2 => ?_⟩
  · rw [if_neg (by tauto), if_pos h]
  · rw [if_neg h1, if_neg h2,
      show CONFIDENCE_THRESHOLDS.exact = 90 from rfl,
      show CONFIDENCE_THRESHOLDS.high = 75 from rfl,
      show CONFIDENCE_THRESHOLDS.medium = 55 from rfl,
      show CONFIDENCE_THRESHOLDS.low = 35 from rfl]
    split_ifs with h90 h75 h55 h35 <;>
      refine ⟨?_, ?_, ?_, ?_, ?_⟩ <;> constructor <;> intro hx <;>
        first
          | rfl
          | (constructor <;> linarith)
          | linarith
          | (simp at hx
             done)

/-- Witness for C6 at concrete inputs: an exact-title, exact-year factor set
maps to `exact` regardless of a zero score, and a non-exact title with three
strong alternatives maps to `ambiguous` at score 100. -/
theorem confidence_level_mapping_witness :
    (exactTitleYearFactors.titleMatchType = TitleMatchType.exact ∧
      exactTitleYearFactors.yearMatchType = YearMatchType.exact) ∧
    determineLevel 0 exactTitleYearFactors = ConfidenceLevel.exact ∧
    (crowdedFactors.alternativeCount ≥ 3 ∧
      crowdedFactors.titleMatchType ≠ TitleMatchType.exact) ∧
    determineLevel 100 crowdedFactors = ConfidenceLevel.ambiguous :=
  ⟨⟨rfl, rfl⟩,
   (confidence_level_mapping 0 exactTitleYearFactors).1 ⟨rfl, rfl⟩,
   ⟨by decide, by decide⟩,
   (confidence_level_mapping 100 crowdedFactors).2.1 ⟨by decide, by decide⟩⟩

/-! ### C7 -/

/-- C7: an ambiguous confidence level never proceeds, always clarifies, and
offers at most four alternatives; and an empty candidate list or missing
best match produces the dedicated zero-score ambiguous no-match result with
the check-the-spelling message instead of an error. -/
theorem ambiguous_and_no_match_behavior :
    (∀ ctx : MatchContext, ctx.bestMatch = none ∨ ctx.candidates = [] →
      calculateConfidenceScore ctx = createNoMatchScore ctx.extractedTitle ∧
      (createNoMatchScore ctx.extractedTitle).score = 0 ∧
      (createNoMatchScore ctx.extractedTitle).level = ConfidenceLevel.ambiguous ∧
      (createNoMatchScore ctx.extractedTitle).behavior.shouldProceed = false ∧
      (createNoMatchScore ctx.extractedTitle).behavior.clarificationMessage =
        some (noMatchMessage ctx.extractedTitle)) ∧
    (∀ ctx : MatchContext,
      (determineBehavior ConfidenceLevel.ambiguous ctx).shouldProceed = false ∧
      (determineBehavior ConfidenceLevel.ambiguous ctx).shouldClarify = true ∧
      ∃ alts, (determineBehavior ConfidenceLevel.ambiguous ctx).alternatives = some alts ∧
        alts.length ≤ 4) := by
  constructor
  · intro ctx h
    refine ⟨?_, rfl, rfl, rfl, rfl⟩
    cases hbm : ctx.bestMatch with
    | none => simp [calculateConfidenceScore, hbm]
    | some best =>
      rcases h with h | h
      · rw [hbm] at h; cases h
      · simp [calculateConfidenceScore, hbm, h]
  · intro ctx
    refine ⟨rfl, rfl, generateAlternatives ctx.candidates ctx.bestMatch, rfl, ?_⟩
    unfold generateAlternatives
    rw [List.length_map]
    calc (((ctx.candidates.filter _).take 4)).length ≤ 4 := List.length_take_le _ _

/-- Witness for C7: the concrete empty-search context produces the no-match
result. -/
theorem ambiguous_and_no_match_behavior_witness :
    (noCandidatesCtx.bestMatch = none ∨ noCandidatesCtx.candidates = []) ∧
    calculateConfidenceScore noCandidatesCtx = createNoMatchScore "Temper" ∧
    (determineBehavior ConfidenceLevel.ambiguous noCandidatesCtx).shouldProceed = false :=
  ⟨Or.inl rfl,
   (ambiguous_and_no_match_behavior.1 noCandidatesCtx (Or.inl rfl)).1,
   (ambiguous_and_no_match_behavior.2 noCandidatesCtx).1⟩

/-! ### C8 -/

lemma jsAbsI_eq_abs (x : ℤ) : jsAbsI x = |x| := by
  unfold jsAbsI
  split_ifs with h
  · exact (abs_of_neg h).symm
  · exact (abs_of_nonneg (by linarith)).symm

/-- C8: the year-match factor is the 20/15/10/3 step function of the
absolute year difference and is monotonically non-increasing in it (release
date present, both sides); the uniqueness factor is the 10/7/4/2 step
function of the strong-alternative count and is monotonically non-increasing
in it. -/
theorem year_and_uniqueness_monotone :
    (∀ (qy : ℤ) (c : Candidate) (y : ℤ), qy ≠ 0 → c.releaseYear = some y →
      (calculateYearMatch (some qy) true c).score =
        (if |y - qy| = 0 then 20 else if |y - qy| = 1 then 15
         else if |y - qy| ≤ 3 then 10 else 3)) ∧
    (∀ (qy : ℤ) (c1 c2 : Candidate) (y1 y2 : ℤ),
      c1.releaseYear = some y1 → c2.releaseYear = some y2 →
      |y1 - qy| ≤ |y2 - qy| →
      (calculateYearMatch (some qy) true c2).score ≤
        (calculateYearMatch (some qy) true c1).score) ∧
    (∀ (cs : List Candidate) (best : Candidate),
      (calculateUniqueness cs best).alternativeCount =
        (strongAlternatives cs best).length ∧
      (calculateUniqueness cs best).score =
        (if (strongAlternatives cs best).length = 0 then 10
         else if (strongAlternatives cs best).length = 1 then 7
         else if (strongAlternatives cs best).length ≤ 3 then 4 else 2)) ∧
    (∀ (cs1 cs2 : List Candidate) (b1 b2 : Candidate),
      (calculateUniqueness cs1 b1).alternativeCount ≤
        (calculateUniqueness cs2 b2).alternativeCount →
      (calculateUniqueness cs2 b2).score ≤ (calculateUniqueness cs1 b1).score) := by
  have huniq : ∀ (cs : List Candidate) (best : Candidate),
      (calculateUniqueness cs best).alternativeCount =
        (strongAlternatives cs best).length ∧
      (calculateUniqueness cs best).score =
        (if (strongAlternatives cs best).length = 0 then 10
         else if (strongAlternatives cs best).length = 1 then 7
         else if (strongAlternatives cs best).length ≤ 3 then 4 else 2) := by
    intro cs best
    simp only [calculateUniqueness]
    constructor <;> split_ifs <;> simp_all <;> omega
  have hyear : ∀ (qy : ℤ) (c : Candidate) (y : ℤ), c.releaseYear = some y →
      (calculateYearMatch (some qy) true c).score =
        (if qy = 0 then 10
         else if |y - qy| = 0 then 20 else if |y - qy| = 1 then 15
         else if |y - qy| ≤ 3 then 10 else 3) := by
    intro qy c y hy
    unfold calculateYearMatch
    rw [hy]
    by_cases hqy : qy = 0
    · simp [hqy]
    · simp only [hqy, Bool.true_eq_false, or_self, if_false, if_neg, jsAbsI_eq_abs]
      split_ifs <;> simp_all
  refine ⟨?_, ?_, huniq, ?_⟩
  · intro qy c y hqy hy
    rw [hyear qy c y hy, if_neg hqy]
  · intro qy c1 c2 y1 y2 h1 h2 hle
    rw [hyear qy c1 y1 h1, hyear qy c2 y2 h2]
    have ha1 : 0 ≤ |y1 - qy| := abs_nonneg _
    have ha2 : 0 ≤ |y2 - qy| := abs_nonneg _
    split_ifs <;> first | omega | norm_num | linarith
  · intro cs1 cs2 b1 b2 hle
    rw [(huniq cs1 b1).2, (huniq cs2 b2).2]
    rw [(huniq cs1 b1).1, (huniq cs2 b2).1] at hle
    split_ifs <;> first | omega | norm_num | linarith

/-- Witness for C8 at concrete inputs: a one-year difference scores 15,
which is at most the 20 of an exact year; two strong alternatives score 4,
at most the 10 of none. -/
theorem year_and_uniqueness_monotone_witness :
    (2014 : ℤ) ≠ 0 ∧ year2015Candidate.releaseYear = some 2015 ∧
    (calculateYearMatch (some 2014) true year2015Candidate).score =
      (if |(2015 - 2014 : ℤ)| = 0 then 20 else if |(2015 - 2014 : ℤ)| = 1 then 15
       else if |(2015 - 2014 : ℤ)| ≤ 3 then 10 else 3) ∧
    (calculateYearMatch (some 2014) true year2015Candidate).score ≤
      (calculateYearMatch (some 2015) true year2015Candidate).score :=
  ⟨by decide, rfl,
   (year_and_uniqueness_monotone.1 2014 year2015Candidate 2015 (by decide) rfl),
   (year_and_uniqueness_monotone.2.1 2015 year2015Candidate year2015Candidate 2015 2015
     rfl rfl (by decide))⟩

/-! ### C9 -/

/-- C9 (amended): `eraFlexibility` is `strict` exactly for recent references
with mass appeal ≥ 85; failing that it is `moderate` for 2010s references
with mass appeal ≥ 70 — even when the style is art-house — and only then
`flexible` for classics or art-house, with `moderate` in all remaining
cases. -/
theorem era_flexibility_mapping (p : CinematicProfile) :
    (determineEraFlexibility p = EraFlexibility.strict ↔
      p.releaseEra = ReleaseEra.recent ∧ p.massAppealScore ≥ 85) ∧
    (determineEraFlexibility p = EraFlexibility.flexible ↔
      ¬(p.releaseEra = ReleaseEra.recent ∧ p.massAppealScore ≥ 85) ∧
      ¬(p.releaseEra = ReleaseEra.era2010s ∧ p.massAppealScore ≥ 70) ∧
      (p.releaseEra = ReleaseEra.classic ∨
        p.storytellingStyle = StorytellingStyle.artHouse)) := by
  unfold determineEraFlexibility
  split_ifs with h1 h2 h3 <;> constructor <;> simp_all

/-- Witness for C9 at concrete inputs: a recent mass-appeal-90 profile is
`strict`; a classic profile (outside both override branches) is
`flexible`. -/
theorem era_flexibility_mapping_witness :
    determineEraFlexibility recentBlockbusterProfile = EraFlexibility.strict ∧
    determineEraFlexibility classicProfile = EraFlexibility.flexible :=
  ⟨(era_flexibility_mapping recentBlockbusterProfile).1.mpr
      ⟨rfl, by norm_num [recentBlockbusterProfile]⟩,
   (era_flexibility_mapping classicProfile).2.mpr
      ⟨by simp [classicProfile], by simp [classicProfile], Or.inl rfl⟩⟩

/-- C9 counterexample: a 2010s art-house profile with mass appeal 70 gets
`moderate`, not the `flexible` the claim demands for every art-house
profile — the 2010s branch precedes the art-house check. -/
theorem era_flexibility_cex :
    artHouse2010sProfile.storytellingStyle = StorytellingStyle.artHouse ∧
    determineEraFlexibility artHouse2010sProfile = EraFlexibility.moderate ∧
    determineEraFlexibility artHouse2010sProfile ≠ EraFlexibility.flexible := by
  refine ⟨rfl, ?_, ?_⟩ <;> with_unfolding_all decide

/-! ### C10 -/

lemma jsSlice_natCast {α : Type} (l : List α) (a b : ℕ) :
    jsSlice l (a : ℤ) (b : ℤ) = (l.drop a).take (b - a) := by
  simp only [jsSlice, jsMinI, jsMaxI]
  rw [if_neg (by omega : ¬((a : ℤ) < 0)), if_neg (by omega : ¬((b : ℤ) < 0))]
  by_cases hA : (a : ℤ) ≤ (l.length : ℤ)
  · rw [if_pos hA]
    by_cases hB : (b : ℤ) ≤ (l.length : ℤ)
    · rw [if_pos hB]
      have h1 : ((b : ℤ) - (a : ℤ)).toNat = b - a := by omega
      rw [Int.toNat_natCast, h1]
    · rw [if_neg hB]
      have h1 : (((l.length : ℕ) : ℤ) - (a : ℤ)).toNat = l.length - a := by omega
      rw [Int.toNat_natCast, h1]
      rw [List.take_of_length_le (by simp [List.length_drop]),
        List.take_of_length_le (by rw [List.length_drop]; omega)]
  · rw [if_neg hA]
    have ha : l.length ≤ a := by omega
    rw [Int.toNat_natCast, List.drop_length, List.drop_eq_nil_of_le ha]
    simp

lemma jsSlice_drop {α : Type} (l : List α) (n : ℕ) :
    jsSlice l (n : ℤ) (l.length : ℤ) = l.drop n := by
  rw [jsSlice_natCast, List.take_of_length_le (by simp [List.length_drop])]

lemma jsSlice_take0 {α : Type} (l : List α) (b : ℕ) :
    jsSlice l 0 (b : ℤ) = l.take b := by
  have h0 : ((0 : ℕ) : ℤ) = (0 : ℤ) := rfl
  rw [← h0, jsSlice_natCast]
  simp

lemma topCountOf_natCast (items : List RankedItem) :
    topCountOf items = ((min 10 items.length : ℕ) : ℤ) := by
  simp only [topCountOf, jsMinI]
  split_ifs <;> omega

lemma explorationSlots_bounds (items : List RankedItem)
    (state : PreferenceLearningState)
    (hef0 : 0 ≤ state.config.explorationFactor)
    (hef1 : state.config.explorationFactor ≤ 1)
    (htc : 0 ≤ topCountOf items) :
    1 ≤ explorationSlotsOf items state ∧
      explorationSlotsOf items state ≤ max 1 (topCountOf items) := by
  simp only [explorationSlotsOf, jsMaxI, jsFloor]
  have htcq : (0 : ℚ) ≤ ((topCountOf items : ℤ) : ℚ) := by exact_mod_cast htc
  have hle : ((topCountOf items : ℚ)) * state.config.explorationFactor ≤
      ((topCountOf items : ℤ) : ℚ) := by
    nlinarith
  have hfl : ⌊((topCountOf items : ℚ)) * state.config.explorationFactor⌋ ≤
      topCountOf items := by
    calc ⌊((topCountOf items : ℚ)) * state.config.explorationFactor⌋
        ≤ ⌊((topCountOf items : ℤ) : ℚ)⌋ := Int.floor_le_floor hle
      _ = topCountOf items := Int.floor_intCast _
  split_ifs with h <;> constructor <;> omega

/-- Appending to a sublist the elements of the host list outside it restores
a permutation of the host, provided the host has no duplicates. -/
lemma sublist_filter_perm {B l : List RankedItem} (hB : B.Sublist l) (hl : l.Nodup) :
    (B ++ l.filter (fun x => ¬ B.contains x)).Perm l := by
  induction hB with
  | slnil => simp
  | @cons l₁ l₂ a hB ih =>
    have hcons := List.nodup_cons.mp hl
    have haB : (decide ¬(l₁.contains a = true)) = true := by
      simp only [decide_eq_true_eq]
      intro hmem
      exact hcons.1 (hB.subset (by simpa using hmem))
    rw [List.filter_cons, if_pos haB]
    refine List.Perm.trans List.perm_middle ?_
    exact (ih hcons.2).cons a
  | @cons₂ l₁ l₂ a hB ih =>
    have hcons := List.nodup_cons.mp hl
    have hfc : l₂.filter (fun x => ¬ (a :: l₁).contains x) =
        l₂.filter (fun x => ¬ l₁.contains x) := by
      refine List.filter_congr ?_
      intro x hx
      have hxa : x ≠ a := fun he => hcons.1 (he ▸ hx)
      simp [List.contains_cons, hxa]
    rw [List.cons_append, List.filter_cons, if_neg (by simp), hfc]
    exact (ih hcons.2).cons a

/-- C10: when the diversity pass activates (more than 5 items, at least 5
likes, exploration factor in `[0, 1]`, and some item outside the top segment
with exploration bonus ≥ 2), the returned list has no duplicates but is not
a permutation of the input: its length is the input length minus the number
of spliced-in exploratory items, because the last positions of the top
segment are dropped rather than shifted down. -/
theorem diversity_pass_drops_tail (items : List RankedItem)
    (state : PreferenceLearningState)
    (hnd : items.Nodup)
    (hlen : 5 < items.length)
    (hlikes : 5 ≤ state.totalLikes)
    (hef0 : 0 ≤ state.config.explorationFactor)
    (hef1 : state.config.explorationFactor ≤ 1)
    (hex : ∃ i ∈ items.drop (min 10 items.length), i.explorationBonus ≥ 2) :
    (ensureTopDiversity items state).Nodup ∧
    (ensureTopDiversity items state).length =
      items.length - (exploratoryOf items state).length ∧
    1 ≤ (exploratoryOf items state).length ∧
    ¬ (ensureTopDiversity items state).Perm items := by
  have htcL : min 10 items.length ≤ items.length := min_le_right _ _
  have htc6 : 6 ≤ min 10 items.length := by omega
  have htcZ : topCountOf items = ((min 10 items.length : ℕ) : ℤ) := topCountOf_natCast items
  obtain ⟨hsl1, hsl2⟩ := explorationSlots_bounds items state hef0 hef1 (by omega)
  have hslT : explorationSlotsOf items state ≤ ((min 10 items.length : ℕ) : ℤ) := by
    rw [htcZ] at hsl2
    omega
  have hslZ : explorationSlotsOf items state =
      (((explorationSlotsOf items state).toNat : ℕ) : ℤ) :=
    (Int.toNat_of_nonneg (by omega)).symm
  set sl := (explorationSlotsOf items state).toNat with hslDef
  have hsl1n : 1 ≤ sl := by omega
  have hslcn : sl ≤ min 10 items.length := by omega
  -- normal form of the exploratory list
  have hE : exploratoryOf items state =
      ((items.drop (min 10 items.length)).filter
        (fun i => i.explorationBonus ≥ 2)).take sl := by
    simp only [exploratoryOf]
    rw [htcZ, jsSlice_drop, hslZ, jsSlice_take0]
  have hF1 : 1 ≤ ((items.drop (min 10 items.length)).filter
      (fun i => i.explorationBonus ≥ 2)).length := by
    obtain ⟨i, hiMem, hiB⟩ := hex
    have : i ∈ (items.drop (min 10 items.length)).filter
        (fun i => i.explorationBonus ≥ 2) :=
      List.mem_filter.mpr ⟨hiMem, decide_eq_true hiB⟩
    have := List.length_pos.mpr (List.ne_nil_of_mem this)
    omega
  have heLen : (exploratoryOf items state).length =
      min sl ((items.drop (min 10 items.length)).filter
        (fun i => i.explorationBonus ≥ 2)).length := by
    rw [hE, List.length_take]
  have he1 : 1 ≤ (exploratoryOf items state).length := by omega
  have heSl : (exploratoryOf items state).length ≤ sl := by omega
  have hEsub : (exploratoryOf items state).Sublist (items.drop (min 10 items.length)) := by
    rw [hE]
    exact (List.take_sublist _ _).trans (List.filter_sublist _)
  -- normal form of the whole pass
  have hg : ¬(items.length ≤ 5 ∨ state.totalLikes < 5) := by
    push_neg
    exact ⟨by omega, by omega⟩
  have hEne : ¬((exploratoryOf items state).length = 0) := by omega
  have hipZ : jsMinI 5 (topCountOf items - explorationSlotsOf items state) =
      ((min 5 (min 10 items.length - sl) : ℕ) : ℤ) := by
    rw [htcZ, hslZ]
    simp only [jsMinI]
    split_ifs <;> omega
  have htcE : topCountOf items - ((exploratoryOf items state).length : ℤ) =
      ((min 10 items.length - (exploratoryOf items state).length : ℕ) : ℤ) := by
    rw [htcZ]
    have : (exploratoryOf items state).length ≤ min 10 items.length := by omega
    omega
  have hmain : ensureTopDiversity items state =
      (items.take (min 10 items.length)).take (min 5 (min 10 items.length - sl)) ++
      exploratoryOf items state ++
      ((items.take (min 10 items.length)).drop (min 5 (min 10 items.length - sl))).take
        ((min 10 items.length - (exploratoryOf items state).length) -
          min 5 (min 10 items.length - sl)) ++
      (items.drop (min 10 items.length)).filter
        (fun item => ¬ (exploratoryOf items state).contains item) := by
    simp only [ensureTopDiversity]
    rw [if_neg hg, if_neg hEne, hipZ, htcE, htcZ, jsSlice_drop, jsSlice_take0,
      jsSlice_take0, jsSlice_natCast]
  -- piece lengths
  have htop : (items.take (min 10 items.length)).length = min 10 items.length := by
    rw [List.length_take]
    omega
  have hip5 : min 5 (min 10 items.length - sl) ≤
      min 10 items.length - (exploratoryOf items state).length := by omega
  have hpermED : (exploratoryOf items state ++
      (items.drop (min 10 items.length)).filter
        (fun item => ¬ (exploratoryOf items state).contains item)).Perm
      (items.drop (min 10 items.length)) :=
    sublist_filter_perm hEsub ((List.drop_sublist _ _).nodup hnd)
  have hdLen : (exploratoryOf items state).length +
      ((items.drop (min 10 items.length)).filter
        (fun item => ¬ (exploratoryOf items state).contains item)).length =
      items.length - min 10 items.length := by
    have := hpermED.length_eq
    rw [List.length_append, List.length_drop] at this
    omega
  have hAC : (items.take (min 10 items.length)).take (min 5 (min 10 items.length - sl)) ++
      ((items.take (min 10 items.length)).drop (min 5 (min 10 items.length - sl))).take
        ((min 10 items.length - (exploratoryOf items state).length) -
          min 5 (min 10 items.length - sl)) =
      (items.take (min 10 items.length)).take
        (min 10 items.length - (exploratoryOf items state).length) := by
    rw [← List.take_add]
    congr 1
    omega
  -- the result is a permutation of (head kept) ++ (exploratory ++ filtered tail)
  have hp : (ensureTopDiversity items state).Perm
      (((items.take (min 10 items.length)).take
          (min 10 items.length - (exploratoryOf items state).length)) ++
        (exploratoryOf items state ++
          (items.drop (min 10 items.length)).filter
            (fun item => ¬ (exploratoryOf items state).contains item))) := by
    rw [hmain, ← hAC, List.perm_iff_count]
    intro a
    simp only [List.count_append]
    ring
  have hdisj0 : (items.take (min 10 items.length)).Disjoint
      (items.drop (min 10 items.length)) := by
    have h := hnd
    rw [← List.take_append_drop (min 10 items.length) items] at h
    exact (List.nodup_append.mp h).2.2
  have hXnodup : ((items.take (min 10 items.length)).take
      (min 10 items.length - (exploratoryOf items state).length)).Nodup :=
    ((List.take_sublist _ _).trans (List.take_sublist _ _)).nodup hnd
  have hYnodup : (exploratoryOf items state ++
      (items.drop (min 10 items.length)).filter
        (fun item => ¬ (exploratoryOf items state).contains item)).Nodup :=
    hpermED.nodup_iff.mpr ((List.drop_sublist _ _).nodup hnd)
  have hdisj : ((items.take (min 10 items.length)).take
      (min 10 items.length - (exploratoryOf items state).length)).Disjoint
      (exploratoryOf items state ++
        (items.drop (min 10 items.length)).filter
          (fun item => ¬ (exploratoryOf items state).contains item)) := by
    intro a haX haY
    exact hdisj0 ((List.take_sublist _ _).subset haX) (hpermED.mem_iff.mp haY)
  have hTargetNodup := List.nodup_append.mpr ⟨hXnodup, hYnodup, hdisj⟩
  have hNodup : (ensureTopDiversity items state).Nodup := hp.nodup_iff.mpr hTargetNodup
  have hLenEq : (ensureTopDiversity items state).length =
      items.length - (exploratoryOf items state).length := by
    have h1 := hp.length_eq
    simp only [List.length_append, List.length_take] at h1
    omega
  refine ⟨hNodup, hLenEq, he1, ?_⟩
  intro hcontra
  have hlc := hcontra.length_eq
  rw [hLenEq] at hlc
  omega

/-- Witness for C10 at a concrete input: twelve ranked items, six likes and
the default exploration factor; the eleventh item (bonus 3) is spliced in
and the result is not a permutation of the input. -/
theorem diversity_pass_drops_tail_witness :
    diversityItems.Nodup ∧
    5 < diversityItems.length ∧
    (5 : ℤ) ≤ diversityState.totalLikes ∧
    (0 : ℚ) ≤ diversityState.config.explorationFactor ∧
    diversityState.config.explorationFactor ≤ 1 ∧
    (∃ i ∈ diversityItems.drop (min 10 diversityItems.length),
      i.explorationBonus ≥ 2) ∧
    ¬ (ensureTopDiversity diversityItems diversityState).Perm diversityItems :=
  ⟨by with_unfolding_all decide, by with_unfolding_all decide,
   by with_unfolding_all decide, by with_unfolding_all decide,
   by with_unfolding_all decide, by with_unfolding_all decide,
   (diversity_pass_drops_tail diversityItems diversityState
     (by with_unfolding_all decide) (by with_unfolding_all decide)
     (by with_unfolding_all decide) (by with_unfolding_all decide)
     (by with_unfolding_all decide) (by with_unfolding_all decide)).2.2.2⟩

end Binge
